import Mathlib

/-!
Verification development for the `operable` MCP server (GCP/K8s incident
response tools).  The definitions below are a shallow embedding of the Go
source: tool argument maps, parameter extraction, the per-tool handlers with
their validation, external-collaborator interaction and report rendering,
the OAuth handler state, and tool registration.  External collaborators
(authenticated HTTP transport, remote JSON APIs, the Error Reporting SDK)
are modelled as explicit environment values handed to each handler, exactly
at the points where the Go code consults them.
-/

set_option maxHeartbeats 1000000
set_option maxRecDepth 8000

namespace Operable

/-- An MCP tool-call argument value.  The Go code receives
`map[string]interface{}` decoded from JSON and uses type assertions
`.(string)`, `.(float64)`, `.(bool)`; we model the three value kinds the
tools declare (string, 64-bit float number, boolean).  Numbers are modelled
as rationals: the claims only inspect presence, kind and sign of numeric
arguments, never float rounding. -/
inductive Value where
  | str (s : String)
  | num (q : ℚ)
  | bool (b : Bool)
  deriving DecidableEq, Repr

/-- The argument map `request.Params.Arguments`.  Keys are unique in a Go
map; lookup returns the first matching key. -/
abbrev Args := List (String × Value)

/-- Go map lookup `request.Params.Arguments[k]`. -/
def lookupArg : Args → String → Option Value
  | [], _ => none
  | (k', v) :: rest, k => if k' = k then some v else lookupArg rest k

/-- Binding a key in the argument map (used to state claims about supplied
vs. absent optional parameters). -/
def setArg (args : Args) (k : String) (v : Value) : Args := (k, v) :: args

/-- The uniform result envelope `mcp.CallToolResult`: a single text content
block plus the `isError` flag. -/
structure CallResult where
  content : String
  isError : Bool
  deriving DecidableEq, Repr

/-- `mcp.NewToolResultError`. -/
def toolErr (msg : String) : CallResult := ⟨msg, true⟩

/-- `mcp.NewToolResultText`. -/
def toolText (t : String) : CallResult := ⟨t, false⟩

/-- A Go handler's return value `(*mcp.CallToolResult, error)`: the second
component is the Go `error`, `none` standing for `nil`. -/
abbrev HandlerOut := CallResult × Option String

/-- Whether an argument-map entry passes the required-string check
`v, ok := args[k].(string); ok && v != ""`. -/
def strOkB : Option Value → Bool
  | some (.str s) => !(s == "")
  | _ => false

/-- The string the type assertion `args[k].(string)` yields (zero value
`""` when the assertion fails). -/
def argStr (args : Args) (k : String) : String :=
  match lookupArg args k with
  | some (.str s) => s
  | _ => ""

/-- The required-string parameter pattern repeated in every handler:
`v, ok := args[k].(string); if !ok || v == "" { return
NewToolResultError(k + " must be a non-empty string"), nil }`. -/
def reqString (args : Args) (k : String) : Except CallResult String :=
  match lookupArg args k with
  | some (.str s) =>
      if s = "" then .error (toolErr (k ++ " must be a non-empty string")) else .ok s
  | _ => .error (toolErr (k ++ " must be a non-empty string"))

/-- The optional-string pattern `v, _ := args[k].(string)`. -/
def optString (args : Args) (k : String) : String := argStr args k

/-- The optional-number pattern with default, repeated in every handler:
`x := d; if val, ok := args[k].(float64); ok && val > 0 { x = val }`. -/
def numOrDefault (args : Args) (k : String) (d : ℚ) : ℚ :=
  match lookupArg args k with
  | some (.num v) => if 0 < v then v else d
  | _ => d

/-- Whether an `Except` is in its error constructor. -/
def exceptBad : Except ε α → Bool
  | .error _ => true
  | .ok _ => false

/-- Whether the character list `pat` is a prefix of `s`. -/
def hasPre : List Char → List Char → Bool
  | [], _ => true
  | _ :: _, [] => false
  | a :: as, b :: bs => a == b && hasPre as bs

/-- Whether `pat` occurs contiguously inside `s` (helper for substring
statements; also models Go `strings.Contains`). -/
def hasSubAux : List Char → List Char → Bool
  | [], pat => pat.isEmpty
  | s@(_ :: t), pat => hasPre pat s || hasSubAux t pat

/-- Go `strings.Contains s pat`. -/
def hasSub (s pat : String) : Bool := hasSubAux s.toList pat.toList

/-! ### RFC3339 timestamps (`time.Parse(time.RFC3339, s)` / `Format`) -/

/-- The wall-clock fields of a parsed RFC3339 time.  `Format` on a parsed
time renders the wall clock in the parsed fixed zone, so the zone offset
and fractional seconds never reach any rendered output and are dropped
after validation. -/
structure DateTime where
  year : Nat
  month : Nat
  day : Nat
  hour : Nat
  minute : Nat
  second : Nat
  deriving DecidableEq, Repr

/-- Numeric value of a decimal digit character, `none` otherwise. -/
def digitVal (c : Char) : Option Nat :=
  if '0' ≤ c ∧ c ≤ '9' then some (c.toNat - 48) else none

/-- Two-digit decimal field. -/
def digits2 (a b : Char) : Option Nat := do
  let x ← digitVal a
  let y ← digitVal b
  pure (10 * x + y)

/-- Four-digit decimal field. -/
def digits4 (a b c d : Char) : Option Nat := do
  let x ← digits2 a b
  let y ← digits2 c d
  pure (100 * x + y)

/-- Gregorian leap year, as in Go `time.isLeap`. -/
def isLeapYear (y : Nat) : Bool :=
  y % 4 == 0 && (y % 100 != 0 || y % 400 == 0)

/-- Days in a month, as in Go `time.daysIn`. -/
def daysIn (m y : Nat) : Nat :=
  if m = 2 then (if isLeapYear y then 29 else 28)
  else if m = 4 ∨ m = 6 ∨ m = 9 ∨ m = 11 then 30
  else 31

/-- Consume `.digits` fractional seconds (at least one digit) from the
front of the zone suffix, returning the rest; no fraction consumes
nothing. -/
def dropFrac : List Char → Option (List Char)
  | '.' :: c :: rest =>
      if (digitVal c).isSome then
        some (rest.dropWhile fun ch => (digitVal ch).isSome)
      else none
  | '.' :: [] => none
  | rest => some rest

/-- Validate the zone suffix: `Z` or `±HH:MM`, consuming the whole rest of
the input (Go rejects trailing text). -/
def zoneOk : List Char → Bool
  | ['Z'] => true
  | s :: h1 :: h2 :: ':' :: m1 :: m2 :: [] =>
      (s == '+' || s == '-') &&
      (match digits2 h1 h2, digits2 m1 m2 with
       | some hh, some mm => hh ≤ 23 && mm ≤ 59
       | _, _ => false)
  | _ => false

/-- Go `time.Parse(time.RFC3339, s)`: strict grammar
`YYYY-MM-DDTHH:MM:SS[.fraction](Z|±HH:MM)` with field range validation. -/
def parseRFC3339 (str : String) : Option DateTime :=
  match str.toList with
  | y1 :: y2 :: y3 :: y4 :: '-' :: mo1 :: mo2 :: '-' :: d1 :: d2 :: 'T' ::
    h1 :: h2 :: ':' :: mi1 :: mi2 :: ':' :: s1 :: s2 :: rest => do
      let year ← digits4 y1 y2 y3 y4
      let month ← digits2 mo1 mo2
      let day ← digits2 d1 d2
      let hour ← digits2 h1 h2
      let minute ← digits2 mi1 mi2
      let second ← digits2 s1 s2
      let rest' ← dropFrac rest
      guard (zoneOk rest')
      guard (1 ≤ month ∧ month ≤ 12)
      guard (1 ≤ day ∧ day ≤ daysIn month year)
      guard (hour ≤ 23)
      guard (minute ≤ 59)
      guard (second ≤ 59)
      pure ⟨year, month, day, hour, minute, second⟩
  | _ => none

/-- Zero-padded two-digit decimal rendering. -/
def pad2 (n : Nat) : String :=
  if n < 10 then "0" ++ toString n else toString n

/-- Zero-padded four-digit decimal rendering. -/
def pad4 (n : Nat) : String :=
  if n < 10 then "000" ++ toString n
  else if n < 100 then "00" ++ toString n
  else if n < 1000 then "0" ++ toString n
  else toString n

/-- Go `t.Format("2006-01-02 15:04:05")` on a parsed time. -/
def fmtYMDHMS (t : DateTime) : String :=
  pad4 t.year ++ "-" ++ pad2 t.month ++ "-" ++ pad2 t.day ++ " " ++
  pad2 t.hour ++ ":" ++ pad2 t.minute ++ ":" ++ pad2 t.second

/-- `formatTime` (documentation.go): parse the RFC3339 wire string; on
success render `YYYY-MM-DD HH:MM:SS`, on failure return the wire string
unchanged.  The same parse-then-format pair is inlined in
`handleGetPodLogs` and `handleQueryMetrics`. -/
def formatTime (timeStr : String) : String :=
  match parseRFC3339 timeStr with
  | none => timeStr
  | some t => fmtYMDHMS t

/-! ### External HTTP collaborator -/

/-- Outcome of one `client.Do(req)` round trip followed by body decoding:
either the transport fails (`doFail`), or a response arrives with a
numeric status code, the status text (`resp.Status`, e.g.
"404 Not Found"), and the result of decoding the body into the handler's
response type. -/
inductive HttpOutcome (α : Type) where
  | doFail (errMsg : String)
  | resp (statusCode : Nat) (status : String) (decoded : Except String α)

/-- Whether an outcome is a collaborator failure: transport error, non-2xx
status (the code checks `!= http.StatusOK`, and every non-2xx code is
`!= 200`), or an undecodable payload. -/
def httpOutcomeFails : HttpOutcome α → Bool
  | .doFail _ => true
  | .resp code _ dec => code != 200 || exceptBad dec

/-- The response-handling tail every HTTP handler repeats after
`client.Do`: surface a transport error, then a non-`http.StatusOK` status
(message carrying `resp.Status`), then a decode error, and otherwise hand
the decoded payload to the continuation.  `apiName` instantiates the
per-handler API name in the messages ("Container API", "Monitoring API",
"Logging API", "Monitoring API for incidents"); `parseMsg` the per-handler
decode-error prefix. -/
def httpTail (apiName parseMsg : String) (o : HttpOutcome α)
    (k : α → CallResult) : CallResult :=
  match o with
  | .doFail e => toolErr ("Error making request to " ++ apiName ++ ": " ++ e)
  | .resp code status dec =>
      if code ≠ 200 then toolErr ("Error from " ++ apiName ++ ": " ++ status)
      else
        match dec with
        | .error e => toolErr (parseMsg ++ e)
        | .ok a => k a

/-- Environment for a handler that performs a single authenticated HTTP
request: the outcome of `authHandler.GetClient(ctx)` and the stub
collaborator, a function from the request the handler builds to the
round-trip outcome. -/
structure HttpEnv (ρ : Type) (α : Type) where
  client : Except String Unit
  http : ρ → HttpOutcome α

/-! ### OAuth handler (pkg/auth/oauth.go) -/

/-- `auth.ReadOnlyScopes`. -/
def ReadOnlyScopes : List String :=
  ["https://www.googleapis.com/auth/cloud-platform.read-only",
   "https://www.googleapis.com/auth/logging.read",
   "https://www.googleapis.com/auth/monitoring.read",
   "https://www.googleapis.com/auth/compute.readonly",
   "https://www.googleapis.com/auth/container.readonly"]

/-- `auth.ReadWriteScopes`. -/
def ReadWriteScopes : List String :=
  ["https://www.googleapis.com/auth/cloud-platform",
   "https://www.googleapis.com/auth/logging.admin",
   "https://www.googleapis.com/auth/monitoring",
   "https://www.googleapis.com/auth/compute",
   "https://www.googleapis.com/auth/container"]

/-- `auth.OAuthHandler`. -/
structure OAuthHandler where
  clientID : String
  clientSecret : String
  currentScopes : List String
  credentialsFile : String
  deriving DecidableEq, Repr

/-- `auth.NewOAuthHandler`, with the three environment variables passed
explicitly. -/
def newOAuthHandler (clientID clientSecret credentialsFile : String) :
    Except String OAuthHandler :=
  if (clientID = "" ∨ clientSecret = "") ∧ credentialsFile = "" then
    .error ("either GOOGLE_CLIENT_ID and GOOGLE_CLIENT_SECRET or " ++
      "GOOGLE_APPLICATION_CREDENTIALS environment variables must be set")
  else
    .ok { clientID := clientID, clientSecret := clientSecret,
          credentialsFile := credentialsFile, currentScopes := ReadOnlyScopes }

/-- `(*OAuthHandler).UpgradePermissions`: state transition plus the
returned Go `error` (always `nil`).  The early return fires when the
current scope list has the same length as `ReadWriteScopes`. -/
def upgradePermissions (h : OAuthHandler) : OAuthHandler × Option String :=
  if h.currentScopes.length = ReadWriteScopes.length then (h, none)
  else ({ h with currentScopes := ReadWriteScopes }, none)

/-- The handler state after `n` consecutive `UpgradePermissions` calls. -/
def upgradeIter : Nat → OAuthHandler → OAuthHandler
  | 0, h => h
  | n + 1, h => upgradeIter n (upgradePermissions h).1

/-! ### Tool registration (pkg/tools/register.go and the register*Tools
functions)

The `mcp-go` server's tool table is a Go map keyed by tool name; `AddTool`
assigns into it, so the registry state is modelled by its key set, a list
of registered names.  `AddToolSafe` (register.go) forwards to `AddTool`
and has no error return.  Each `register*Tools` function calls
`AddToolSafe` once per tool and unconditionally returns `nil`. -/

/-- The server's registered tool-name set after a map assignment
`s.tools[name] = entry`. -/
def addToolName (ts : List String) (n : String) : List String :=
  if n ∈ ts then ts else ts ++ [n]

/-- `AddToolSafe` (register.go): no error path, just the `AddTool`
assignment. -/
def addToolSafe (ts : List String) (n : String) : List String :=
  addToolName ts n

/-- `registerKubernetesTools`. -/
def registerKubernetesTools (ts : List String) : Except String (List String) :=
  .ok (addToolSafe (addToolSafe (addToolSafe ts
        "list_clusters") "get_cluster_info") "list_node_pools")

/-- `registerGCPIssuesTools`. -/
def registerGCPIssuesTools (ts : List String) : Except String (List String) :=
  .ok (addToolSafe (addToolSafe ts "list_active_issues") "get_issue_details")

/-- `registerLoggingTools`. -/
def registerLoggingTools (ts : List String) : Except String (List String) :=
  .ok (addToolSafe (addToolSafe ts "query_logs") "get_pod_logs")

/-- `registerMonitoringTools`. -/
def registerMonitoringTools (ts : List String) : Except String (List String) :=
  .ok (addToolSafe (addToolSafe ts "query_metrics") "list_alerts")

/-- `registerDocumentationTools`. -/
def registerDocumentationTools (ts : List String) : Except String (List String) :=
  .ok (addToolSafe (addToolSafe (addToolSafe ts
        "search_gcp_docs") "search_k8s_docs") "get_error_docs")

/-- `RegisterTools` (register.go): each capability area registered in
turn, a failure wrapped with the area name and propagated. -/
def registerTools (ts : List String) : Except String (List String) :=
  match registerGCPIssuesTools ts with
  | .error e => .error ("error registering GCP issues tools: " ++ e)
  | .ok ts =>
  match registerLoggingTools ts with
  | .error e => .error ("error registering logging tools: " ++ e)
  | .ok ts =>
  match registerKubernetesTools ts with
  | .error e => .error ("error registering Kubernetes tools: " ++ e)
  | .ok ts =>
  match registerMonitoringTools ts with
  | .error e => .error ("error registering monitoring tools: " ++ e)
  | .ok ts =>
  match registerDocumentationTools ts with
  | .error e => .error ("error registering documentation tools: " ++ e)
  | .ok ts => .ok ts

/-- The registry contents after a first successful `RegisterTools` run on
an empty server. -/
def serverOnce : List String := ((registerTools []).toOption).getD []

/-! ### Kubernetes tools (cmd: kubernetes handlers) -/

/-- Go `%t` formatting. -/
def fmtBool (b : Bool) : String := if b then "true" else "false"

/-- `boolToEnabledString`. -/
def boolToEnabledString (b : Bool) : String := if b then "Enabled" else "Disabled"

/-- `gcpContainerBaseURL`. -/
def gcpContainerBaseURL : String := "https://container.googleapis.com/v1"

/-- One entry of the `list_clusters` response's `clusters` array. -/
structure Cluster where
  name : String
  description : String
  location : String
  status : String
  nodeCount : Int
  masterVersion : String
  nodeVersion : String
  network : String
  subnetwork : String
  clusterIpv4Cidr : String
  servicesIpv4Cidr : String
  endpoint : String
  createTime : String
  deriving DecidableEq, Repr

/-- The decoded `list_clusters` response body. -/
structure ClustersResponse where
  clusters : List Cluster
  deriving DecidableEq, Repr

/-- Per-cluster block of the `list_clusters` report (`i` is the 1-based
position printed as `%d`). -/
def renderClusterEntry (i : Nat) (c : Cluster) : String :=
  "### " ++ toString i ++ ". Cluster: " ++ c.name ++ "\n" ++
  "- **Location**: " ++ c.location ++ "\n" ++
  "- **Status**: " ++ c.status ++ "\n" ++
  "- **Node Count**: " ++ toString c.nodeCount ++ "\n" ++
  "- **Kubernetes Version**: " ++ c.masterVersion ++ " (master) / " ++
    c.nodeVersion ++ " (nodes)\n" ++
  "- **Endpoint**: " ++ c.endpoint ++ "\n" ++
  "- **Network**: " ++ c.network ++ "\n" ++
  "- **Subnetwork**: " ++ c.subnetwork ++ "\n" ++
  "- **Pod CIDR**: " ++ c.clusterIpv4Cidr ++ "\n" ++
  "- **Service CIDR**: " ++ c.servicesIpv4Cidr ++ "\n" ++
  "- **Created**: " ++ c.createTime ++ "\n" ++
  (if c.description ≠ "" then "- **Description**: " ++ c.description ++ "\n" else "") ++
  "\n"

/-- The cluster loop of `handleListClusters`. -/
def renderClustersFrom (i : Nat) : List Cluster → String
  | [] => ""
  | c :: rest => renderClusterEntry i c ++ renderClustersFrom (i + 1) rest

/-- Report rendering of `handleListClusters` (the "Format the results"
block). -/
def renderListClusters (projectID location : String) (r : ClustersResponse) : String :=
  if r.clusters.length = 0 then
    "No GKE clusters found in project " ++ projectID ++
    (if location ≠ "" then " in location " ++ location else "") ++ "."
  else
    "Found " ++ toString r.clusters.length ++ " GKE clusters in project " ++ projectID ++
    (if location ≠ "" then " in location " ++ location else "") ++ ":\n\n" ++
    renderClustersFrom 1 r.clusters

/-- `handleListClusters`.  Request-construction failures
(`http.NewRequestWithContext` on a well-formed GET URL) cannot occur and
are not modelled; every other exit of the Go function is present. -/
def handleListClusters (args : Args) (env : HttpEnv String ClustersResponse) :
    HandlerOut :=
  match reqString args "project_id" with
  | .error e => (e, none)
  | .ok projectID =>
  let location := optString args "location"
  match env.client with
  | .error e => (toolErr ("Error getting authenticated client: " ++ e), none)
  | .ok _ =>
  let apiURL :=
    if location = "" then
      gcpContainerBaseURL ++ "/projects/" ++ projectID ++ "/locations/-/clusters"
    else
      gcpContainerBaseURL ++ "/projects/" ++ projectID ++ "/locations/" ++
        location ++ "/clusters"
  (httpTail "Container API" "Error parsing response: " (env.http apiURL)
    (fun response => toolText (renderListClusters projectID location response)), none)

/-- The decoded `get_cluster_info` response body.  The `networkConfig`
sub-object is decoded by the Go code but never rendered and is omitted;
`resourceLabels` is a Go map, its list order standing for one iteration
order of `range`. -/
structure ClusterDetail where
  name : String
  description : String
  location : String
  status : String
  nodeCount : Int
  masterVersion : String
  nodeVersion : String
  network : String
  subnetwork : String
  clusterIpv4Cidr : String
  servicesIpv4Cidr : String
  endpoint : String
  createTime : String
  mwStartTime : String
  mwDuration : String
  httpLoadBalancingDisabled : Bool
  horizontalPodAutoscalingDisabled : Bool
  kubernetesDashboardDisabled : Bool
  networkPolicyConfigDisabled : Bool
  locations : List String
  resourceLabels : List (String × String)
  deriving DecidableEq, Repr

/-- The `- %s` location lines of the Node Locations section. -/
def renderLocList : List String → String
  | [] => ""
  | l :: rest => "- " ++ l ++ "\n" ++ renderLocList rest

/-- The `- **%s**: %s` lines of the Resource Labels section, in map
iteration order. -/
def renderLabelLines : List (String × String) → String
  | [] => ""
  | (k, v) :: rest => "- **" ++ k ++ "**: " ++ v ++ "\n" ++ renderLabelLines rest

/-- Report rendering of `handleGetClusterInfo`. -/
def renderClusterInfo (c : ClusterDetail) : String :=
  "# GKE Cluster: " ++ c.name ++ "\n\n" ++
  "## Basic Information\n\n" ++
  "- **Location**: " ++ c.location ++ "\n" ++
  "- **Status**: " ++ c.status ++ "\n" ++
  "- **Node Count**: " ++ toString c.nodeCount ++ "\n" ++
  "- **Kubernetes Version**: " ++ c.masterVersion ++ " (master) / " ++
    c.nodeVersion ++ " (nodes)\n" ++
  "- **Endpoint**: " ++ c.endpoint ++ "\n" ++
  "- **Created**: " ++ c.createTime ++ "\n" ++
  (if c.description ≠ "" then "- **Description**: " ++ c.description ++ "\n" else "") ++
  "\n## Network Configuration\n\n" ++
  "- **Network**: " ++ c.network ++ "\n" ++
  "- **Subnetwork**: " ++ c.subnetwork ++ "\n" ++
  "- **Pod CIDR**: " ++ c.clusterIpv4Cidr ++ "\n" ++
  "- **Service CIDR**: " ++ c.servicesIpv4Cidr ++ "\n" ++
  "\n## Add-ons Configuration\n\n" ++
  "- **HTTP Load Balancing**: " ++
    boolToEnabledString (!c.httpLoadBalancingDisabled) ++ "\n" ++
  "- **Horizontal Pod Autoscaling**: " ++
    boolToEnabledString (!c.horizontalPodAutoscalingDisabled) ++ "\n" ++
  "- **Kubernetes Dashboard**: " ++
    boolToEnabledString (!c.kubernetesDashboardDisabled) ++ "\n" ++
  "- **Network Policy**: " ++
    boolToEnabledString (!c.networkPolicyConfigDisabled) ++ "\n" ++
  (if c.locations.length > 0 then
    "\n## Node Locations\n\n" ++ renderLocList c.locations else "") ++
  (if c.resourceLabels.length > 0 then
    "\n## Resource Labels\n\n" ++ renderLabelLines c.resourceLabels else "") ++
  (if c.mwStartTime ≠ "" then
    "\n## Maintenance Window\n\n" ++
    "- **Start Time**: " ++ c.mwStartTime ++ "\n" ++
    "- **Duration**: " ++ c.mwDuration ++ "\n" else "")

/-- `handleGetClusterInfo`. -/
def handleGetClusterInfo (args : Args) (env : HttpEnv String ClusterDetail) :
    HandlerOut :=
  match reqString args "project_id" with
  | .error e => (e, none)
  | .ok projectID =>
  match reqString args "location" with
  | .error e => (e, none)
  | .ok location =>
  match reqString args "cluster_name" with
  | .error e => (e, none)
  | .ok clusterName =>
  match env.client with
  | .error e => (toolErr ("Error getting authenticated client: " ++ e), none)
  | .ok _ =>
  let apiURL := gcpContainerBaseURL ++ "/projects/" ++ projectID ++
    "/locations/" ++ location ++ "/clusters/" ++ clusterName
  (httpTail "Container API" "Error parsing response: " (env.http apiURL)
    (fun cluster => toolText (renderClusterInfo cluster)), none)

/-- One entry of the `list_node_pools` response's `nodePools` array.  The
`config.labels` list order stands for one `range` iteration order of the
Go map; `instanceGroupUrls` is decoded but never rendered. -/
structure NodePool where
  name : String
  status : String
  machineType : String
  diskSizeGb : Int
  oauthScopes : List String
  serviceAccount : String
  preemptible : Bool
  labels : List (String × String)
  initialNodeCount : Int
  locations : List String
  instanceGroupUrls : List String
  version : String
  autoscalingEnabled : Bool
  minNodeCount : Int
  maxNodeCount : Int
  autoUpgrade : Bool
  autoRepair : Bool
  deriving DecidableEq, Repr

/-- The decoded `list_node_pools` response body. -/
structure NodePoolsResponse where
  nodePools : List NodePool
  deriving DecidableEq, Repr

/-- The `  - %s` scope lines of the OAuth Scopes list. -/
def renderScopeLines : List String → String
  | [] => ""
  | s :: rest => "  - " ++ s ++ "\n" ++ renderScopeLines rest

/-- The `  - %s: %s` label lines beneath a `- **Labels**:` heading, in map
iteration order. -/
def renderKVIndent : List (String × String) → String
  | [] => ""
  | (k, v) :: rest => "  - " ++ k ++ ": " ++ v ++ "\n" ++ renderKVIndent rest

/-- Per-pool block of the `list_node_pools` report. -/
def renderNodePoolEntry (i : Nat) (p : NodePool) : String :=
  "## " ++ toString i ++ ". Node Pool: " ++ p.name ++ "\n\n" ++
  "- **Status**: " ++ p.status ++ "\n" ++
  "- **Version**: " ++ p.version ++ "\n" ++
  "- **Initial Node Count**: " ++ toString p.initialNodeCount ++ "\n" ++
  "\n### Machine Configuration\n\n" ++
  "- **Machine Type**: " ++ p.machineType ++ "\n" ++
  "- **Disk Size**: " ++ toString p.diskSizeGb ++ " GB\n" ++
  "- **Preemptible**: " ++ fmtBool p.preemptible ++ "\n" ++
  "- **Service Account**: " ++ p.serviceAccount ++ "\n" ++
  (if p.oauthScopes.length > 0 then
    "- **OAuth Scopes**:\n" ++ renderScopeLines p.oauthScopes else "") ++
  (if p.labels.length > 0 then
    "- **Labels**:\n" ++ renderKVIndent p.labels else "") ++
  "\n### Autoscaling\n\n" ++
  (if p.autoscalingEnabled then
    "- **Enabled**: Yes\n" ++
    "- **Min Nodes**: " ++ toString p.minNodeCount ++ "\n" ++
    "- **Max Nodes**: " ++ toString p.maxNodeCount ++ "\n"
   else "- **Enabled**: No\n") ++
  "\n### Management\n\n" ++
  "- **Auto Upgrade**: " ++ fmtBool p.autoUpgrade ++ "\n" ++
  "- **Auto Repair**: " ++ fmtBool p.autoRepair ++ "\n" ++
  (if p.locations.length > 0 then
    "\n### Locations\n\n" ++ renderLocList p.locations else "") ++
  "\n"

/-- The pool loop of `handleListNodePools`. -/
def renderNodePoolsFrom (i : Nat) : List NodePool → String
  | [] => ""
  | p :: rest => renderNodePoolEntry i p ++ renderNodePoolsFrom (i + 1) rest

/-- Report rendering of `handleListNodePools`. -/
def renderNodePools (clusterName location : String) (r : NodePoolsResponse) : String :=
  if r.nodePools.length = 0 then
    "No node pools found in cluster " ++ clusterName ++ " in location " ++
      location ++ "."
  else
    "# Node Pools in Cluster " ++ clusterName ++ "\n\n" ++
    renderNodePoolsFrom 1 r.nodePools

/-- `handleListNodePools`. -/
def handleListNodePools (args : Args) (env : HttpEnv String NodePoolsResponse) :
    HandlerOut :=
  match reqString args "project_id" with
  | .error e => (e, none)
  | .ok projectID =>
  match reqString args "location" with
  | .error e => (e, none)
  | .ok location =>
  match reqString args "cluster_name" with
  | .error e => (e, none)
  | .ok clusterName =>
  match env.client with
  | .error e => (toolErr ("Error getting authenticated client: " ++ e), none)
  | .ok _ =>
  let apiURL := gcpContainerBaseURL ++ "/projects/" ++ projectID ++
    "/locations/" ++ location ++ "/clusters/" ++ clusterName ++ "/nodePools"
  (httpTail "Container API" "Error parsing response: " (env.http apiURL)
    (fun response => toolText (renderNodePools clusterName location response)), none)

/-! ### Documentation tools (documentation.go, simulated search) -/

/-- A simulated documentation search result. -/
structure SearchResult where
  title : String
  link : String
  snippet : String
  displayLink : String
  deriving DecidableEq, Repr

/-- The simulated GCP documentation results of `handleSearchGCPDocs`. -/
def gcpSimulatedResults : List SearchResult :=
  [{ title := "Error Reporting | Google Cloud",
     link := "https://cloud.google.com/error-reporting",
     snippet := "Error Reporting counts, analyzes, and aggregates the crashes in your running cloud services.",
     displayLink := "cloud.google.com" },
   { title := "Monitoring | Google Cloud",
     link := "https://cloud.google.com/monitoring",
     snippet := "Gain visibility into the performance, availability, and health of your applications and infrastructure.",
     displayLink := "cloud.google.com" },
   { title := "Logging | Google Cloud",
     link := "https://cloud.google.com/logging",
     snippet := "Logging allows you to store, search, analyze, monitor, and alert on log data and events from Google Cloud and Amazon Web Services.",
     displayLink := "cloud.google.com" },
   { title := "Kubernetes Engine | Google Cloud",
     link := "https://cloud.google.com/kubernetes-engine",
     snippet := "Google Kubernetes Engine (GKE) is a managed, production-ready environment for running containerized applications.",
     displayLink := "cloud.google.com" },
   { title := "Troubleshooting GKE | Google Cloud",
     link := "https://cloud.google.com/kubernetes-engine/docs/troubleshooting",
     snippet := "This page provides troubleshooting information for common issues that you might encounter when using Google Kubernetes Engine.",
     displayLink := "cloud.google.com" }]

/-- The simulated Kubernetes documentation results of
`handleSearchK8sDocs`. -/
def k8sSimulatedResults : List SearchResult :=
  [{ title := "Troubleshooting Clusters | Kubernetes",
     link := "https://kubernetes.io/docs/tasks/debug/debug-cluster/",
     snippet := "This guide is to help users debug applications that are deployed into Kubernetes and not behaving correctly.",
     displayLink := "kubernetes.io" },
   { title := "Troubleshooting Applications | Kubernetes",
     link := "https://kubernetes.io/docs/tasks/debug/debug-application/",
     snippet := "This guide is to help users debug applications that are deployed into Kubernetes and not behaving correctly.",
     displayLink := "kubernetes.io" },
   { title := "Debugging Pods | Kubernetes",
     link := "https://kubernetes.io/docs/tasks/debug/debug-application/debug-pods/",
     snippet := "This guide is to help users debug applications that are deployed into Kubernetes and not behaving correctly.",
     displayLink := "kubernetes.io" },
   { title := "Debugging Services | Kubernetes",
     link := "https://kubernetes.io/docs/tasks/debug/debug-application/debug-service/",
     snippet := "This guide is to help users debug applications that are deployed into Kubernetes and not behaving correctly.",
     displayLink := "kubernetes.io" },
   { title := "Debugging Init Containers | Kubernetes",
     link := "https://kubernetes.io/docs/tasks/debug/debug-application/debug-init-containers/",
     snippet := "This guide is to help users debug applications that are deployed into Kubernetes and not behaving correctly.",
     displayLink := "kubernetes.io" }]

/-- The query filter both search handlers apply: keep results whose
lower-cased title or snippet contains the lower-cased query. -/
def filterResults (results : List SearchResult) (query : String) : List SearchResult :=
  results.filter fun r =>
    hasSub r.title.toLower query.toLower || hasSub r.snippet.toLower query.toLower

/-- One rendered search hit (`## %d. title`, URL line, snippet). -/
def renderSearchEntry (i : Nat) (r : SearchResult) : String :=
  "## " ++ toString i ++ ". " ++ r.title ++ "\n" ++
  "**URL**: [" ++ r.link ++ "](" ++ r.link ++ ")\n\n" ++
  r.snippet ++ "\n\n"

/-- The search-hit loop, which breaks once the 0-based index reaches
`int(maxResults)`. -/
def renderSearchFrom (i : Nat) : List SearchResult → String
  | [] => ""
  | r :: rest => renderSearchEntry i r ++ renderSearchFrom (i + 1) rest

/-- `handleSearchGCPDocs`. -/
def handleSearchGCPDocs (args : Args) : HandlerOut :=
  match reqString args "query" with
  | .error e => (e, none)
  | .ok query =>
  let maxResults := numOrDefault args "max_results" 5
  let filtered := filterResults gcpSimulatedResults query
  if filtered.length = 0 then
    (toolText ("No documentation found for query: " ++ query), none)
  else
    (toolText ("# Google Cloud Documentation Search Results for \"" ++ query ++
      "\"\n\n" ++
      renderSearchFrom 1 (filtered.take (Int.toNat ⌊maxResults⌋)) ++
      "For more results, visit the [Google Cloud documentation](https://cloud.google.com/docs)."),
     none)

/-- `handleSearchK8sDocs`. -/
def handleSearchK8sDocs (args : Args) : HandlerOut :=
  match reqString args "query" with
  | .error e => (e, none)
  | .ok query =>
  let maxResults := numOrDefault args "max_results" 5
  let filtered := filterResults k8sSimulatedResults query
  if filtered.length = 0 then
    (toolText ("No documentation found for query: " ++ query), none)
  else
    (toolText ("# Kubernetes Documentation Search Results for \"" ++ query ++
      "\"\n\n" ++
      renderSearchFrom 1 (filtered.take (Int.toNat ⌊maxResults⌋)) ++
      "For more results, visit the [Kubernetes documentation](https://kubernetes.io/docs/)."),
     none)

/-- A simulated error-documentation record of `handleGetErrorDocs`. -/
structure ErrorDoc where
  title : String
  description : String
  solution : String
  references : List String
  deriving DecidableEq, Repr

/-- The simulated `errorDocs` map.  It is a Go map literal; the list
order here is the literal's order and stands for one iteration order of
the message-search `range` (Go map iteration order is unspecified). -/
def errorDocs : List (String × ErrorDoc) :=
  [("RESOURCE_EXHAUSTED",
    { title := "Resource Exhausted Error",
      description := "This error occurs when a resource quota has been exceeded. It typically happens when you\x27ve reached the limit for a particular resource in your Google Cloud project.",
      solution := "1. Check your current quota usage in the Google Cloud Console.\n2. Request a quota increase if needed.\n3. Optimize your resource usage to stay within limits.",
      references := ["https://cloud.google.com/docs/quota",
                     "https://cloud.google.com/compute/docs/resource-quotas"] }),
   ("PERMISSION_DENIED",
    { title := "Permission Denied Error",
      description := "This error occurs when the authenticated user does not have sufficient permissions to perform the requested operation.",
      solution := "1. Check the IAM permissions for the user or service account.\n2. Grant the necessary roles or permissions.\n3. Verify that the service account has the required scopes.",
      references := ["https://cloud.google.com/iam/docs/overview",
                     "https://cloud.google.com/iam/docs/troubleshooting-access"] }),
   ("NOT_FOUND",
    { title := "Resource Not Found Error",
      description := "This error occurs when the requested resource does not exist or is not accessible.",
      solution := "1. Verify that the resource name or ID is correct.\n2. Check if the resource exists in the specified project and region.\n3. Ensure that the resource hasn\x27t been deleted.",
      references := ["https://cloud.google.com/apis/design/errors"] }),
   ("FAILED_PRECONDITION",
    { title := "Failed Precondition Error",
      description := "This error occurs when the system is not in a state required for the operation\x27s execution.",
      solution := "1. Check the current state of the resource.\n2. Ensure all prerequisites for the operation are met.\n3. Retry the operation after resolving any conflicts.",
      references := ["https://cloud.google.com/apis/design/errors"] }),
   ("DEADLINE_EXCEEDED",
    { title := "Deadline Exceeded Error",
      description := "This error occurs when the operation took longer than the deadline specified by the client or the system.",
      solution := "1. Increase the timeout for the operation if possible.\n2. Break down large operations into smaller ones.\n3. Check for performance issues in your application.",
      references := ["https://cloud.google.com/apis/design/errors"] })]

/-- The type assertion pair `v, ok := args[k].(string)`. -/
def strAssert (args : Args) (k : String) : String × Bool :=
  match lookupArg args k with
  | some (.str s) => (s, true)
  | _ => ("", false)

/-- Go map lookup in `errorDocs` with its `found` flag. -/
def errorDocsLookup (code : String) : Option ErrorDoc :=
  match errorDocs.find? fun p => p.1 = code with
  | some p => some p.2
  | none => none

/-- The message-search loop: first doc (in iteration order) whose
lower-cased description contains the lower-cased error message. -/
def errorDocsSearch (errorMessage : String) : Option ErrorDoc :=
  match errorDocs.find? fun p =>
      hasSub p.2.description.toLower errorMessage.toLower with
  | some p => some p.2
  | none => none

/-- The `- [%s](%s)` reference lines. -/
def renderRefLines : List String → String
  | [] => ""
  | r :: rest => "- [" ++ r ++ "](" ++ r ++ ")\n" ++ renderRefLines rest

/-- `handleGetErrorDocs`. -/
def handleGetErrorDocs (args : Args) : HandlerOut :=
  let (errorCode, hasErrorCode) := strAssert args "error_code"
  let (errorMessage, hasErrorMessage) := strAssert args "error_message"
  if !hasErrorCode && !hasErrorMessage then
    (toolErr "either error_code or error_message must be provided", none)
  else
    let fromCode := if hasErrorCode then errorDocsLookup errorCode else none
    let found :=
      match fromCode with
      | some d => some d
      | none => if hasErrorMessage then errorDocsSearch errorMessage else none
    match found with
    | none =>
        (toolText ("No documentation found for the specified error." ++
          (if hasErrorCode then " Error code: " ++ errorCode else "") ++
          (if hasErrorMessage then " Error message: " ++ errorMessage else "") ++
          "\n\nTry searching the Google Cloud documentation or Kubernetes documentation for more information."),
         none)
    | some info =>
        (toolText ("# " ++ info.title ++ "\n\n" ++
          "## Description\n\n" ++ info.description ++ "\n\n" ++
          "## Solution\n\n" ++ info.solution ++ "\n\n" ++
          (if info.references.length > 0 then
            "## References\n\n" ++ renderRefLines info.references else "")),
         none)

/-! ### Monitoring tools (query_metrics, list_alerts) -/

/-- Go float-to-decimal rounding (round half to even, as `fmt` uses). -/
def roundHalfEven (q : ℚ) : Int :=
  let f := ⌊q⌋
  let r := q - f
  if r < 1 / 2 then f
  else if 1 / 2 < r then f + 1
  else if f % 2 = 0 then f else f + 1

/-- Left-pad a decimal rendering with zeros to width `w`. -/
def padZeros (w : Nat) (n : Nat) : String :=
  let s := toString n
  String.mk (List.replicate (w - s.length) '0') ++ s

/-- Go `fmt.Sprintf("%.0f", q)`. -/
def fmtF0 (q : ℚ) : String := toString (roundHalfEven q)

/-- Go `fmt.Sprintf("%.1f", q)`. -/
def fmtF1 (q : ℚ) : String :=
  let n := roundHalfEven (q * 10)
  (if n < 0 then "-" else "") ++
    toString (n.natAbs / 10) ++ "." ++ toString (n.natAbs % 10)

/-- Go `fmt.Sprintf("%.6f", q)`. -/
def fmtF6 (q : ℚ) : String :=
  let n := roundHalfEven (q * 1000000)
  (if n < 0 then "-" else "") ++
    toString (n.natAbs / 1000000) ++ "." ++ padZeros 6 (n.natAbs % 1000000)

/-- `gcpMonitoringBaseURL`. -/
def gcpMonitoringBaseURL : String := "https://monitoring.googleapis.com/v3"

/-- A decoded `labelValues` entry. -/
structure LabelValue where
  stringValue : String
  boolValue : Bool
  int64Value : String
  deriving DecidableEq, Repr

/-- A decoded point value. -/
structure PointValue where
  doubleValue : ℚ
  int64Value : String
  boolValue : Bool
  stringValue : String
  deriving DecidableEq, Repr

/-- A decoded `pointData` entry with its time interval. -/
structure PointData where
  values : List PointValue
  startTime : String
  endTime : String
  deriving DecidableEq, Repr

/-- A decoded time series. -/
structure TimeSeries where
  labelValues : List LabelValue
  pointData : List PointData
  deriving DecidableEq, Repr

/-- A `labelDescriptors` entry. -/
structure LabelDescriptor where
  key : String
  valueType : String
  description : String
  deriving DecidableEq, Repr

/-- A `pointDescriptors` entry (decoded; the derived `pointKeys` list is
built by the Go code but never used in rendering). -/
structure PointDescriptor where
  key : String
  valueType : String
  metricKind : String
  unit : String
  description : String
  deriving DecidableEq, Repr

/-- The decoded `query_metrics` response body. -/
structure MetricsResponse where
  timeSeriesData : List TimeSeries
  labelDescriptors : List LabelDescriptor
  pointDescriptors : List PointDescriptor
  deriving DecidableEq, Repr

/-- The label lines of one time series: value entry `j` is rendered with
label key `j` and skipped when `j` is past the end of the key list. -/
def renderTSLabels (keys : List String) : Nat → List LabelValue → String
  | _, [] => ""
  | j, lv :: rest =>
      (match keys[j]? with
       | some key =>
           let value :=
             if lv.stringValue ≠ "" then lv.stringValue
             else if lv.int64Value ≠ "" then lv.int64Value
             else fmtBool lv.boolValue
           "- **" ++ key ++ "**: " ++ value ++ "\n"
       | none => "") ++ renderTSLabels keys (j + 1) rest

/-- One `| Time | Value |` table row: the interval end time converted via
the inline RFC3339 parse/format pair, and the first value rendered by
kind. -/
def renderPointRow (pd : PointData) : String :=
  let timeStr := formatTime pd.endTime
  let valueStr :=
    match pd.values with
    | v :: _ =>
        if v.doubleValue ≠ 0 then fmtF6 v.doubleValue
        else if v.int64Value ≠ "" then v.int64Value
        else if v.stringValue ≠ "" then v.stringValue
        else fmtBool v.boolValue
    | [] => "N/A"
  "| " ++ timeStr ++ " | " ++ valueStr ++ " |\n"

/-- The data-point rows. -/
def renderPointRows : List PointData → String
  | [] => ""
  | pd :: rest => renderPointRow pd ++ renderPointRows rest

/-- One time-series section of the `query_metrics` report. -/
def renderTimeSeries (labelKeys : List String) (i : Nat) (ts : TimeSeries) : String :=
  "## Time Series " ++ toString i ++ "\n\n" ++
  "### Labels\n\n" ++ renderTSLabels labelKeys 0 ts.labelValues ++
  "\n### Data Points\n\n" ++
  (if ts.pointData.length = 0 then "No data points available.\n"
   else "| Time | Value |\n" ++ "| ---- | ----- |\n" ++
        renderPointRows ts.pointData) ++
  "\n"

/-- The time-series loop. -/
def renderTimeSeriesFrom (labelKeys : List String) (i : Nat) :
    List TimeSeries → String
  | [] => ""
  | ts :: rest =>
      renderTimeSeries labelKeys i ts ++ renderTimeSeriesFrom labelKeys (i + 1) rest

/-- Report rendering of `handleQueryMetrics`. -/
def renderMetrics (metricType : String) (r : MetricsResponse) : String :=
  if r.timeSeriesData.length = 0 then
    "No metrics data found for metric type " ++ metricType ++
      " in the specified time range."
  else
    "# Metrics Data for " ++ metricType ++ "\n\n" ++
    renderTimeSeriesFrom (r.labelDescriptors.map LabelDescriptor.key) 1
      r.timeSeriesData

/-- The `timeSeries:query` request `handleQueryMetrics` posts: URL plus
the marshalled body fields. -/
structure MetricsRequest where
  url : String
  metricType : String
  alignmentPeriod : String
  perSeriesAligner : String
  crossSeriesReducer : String
  startTime : String
  endTime : String
  filter : Option String
  deriving DecidableEq, Repr

/-- Environment for a handler that reads the clock and performs one
authenticated HTTP request: `GetClient` outcome, the RFC3339 rendering of
a unix instant (`t.Format(time.RFC3339)`), and the stub collaborator as a
function of the request. -/
structure TimedHttpEnv (ρ : Type) (α : Type) where
  client : Except String Unit
  fmtRFC : Int → String
  http : ρ → HttpOutcome α

/-- `handleQueryMetrics`.  `now` is the unix second of `time.Now()`; the
start of the interval is `now` minus `time.Duration(timeRangeHours) *
time.Hour`, whose float-to-`Duration` conversion truncates the hours to an
integer.  `json.Marshal` of the request map cannot fail and is not
modelled. -/
def handleQueryMetrics (args : Args) (now : Int)
    (env : TimedHttpEnv MetricsRequest MetricsResponse) : HandlerOut :=
  match reqString args "project_id" with
  | .error e => (e, none)
  | .ok projectID =>
  match reqString args "metric_type" with
  | .error e => (e, none)
  | .ok metricType =>
  let filter := optString args "filter"
  let timeRangeHours := numOrDefault args "time_range_hours" 1
  let alignmentPeriodSeconds := numOrDefault args "alignment_period_seconds" 300
  match env.client with
  | .error e => (toolErr ("Error getting authenticated client: " ++ e), none)
  | .ok _ =>
  let req : MetricsRequest :=
    { url := gcpMonitoringBaseURL ++ "/projects/" ++ projectID ++
        "/timeSeries:query",
      metricType := metricType,
      alignmentPeriod := fmtF0 alignmentPeriodSeconds ++ "s",
      perSeriesAligner := "ALIGN_MEAN",
      crossSeriesReducer := "REDUCE_MEAN",
      startTime := env.fmtRFC (now - 3600 * ⌊timeRangeHours⌋),
      endTime := env.fmtRFC now,
      filter := if filter ≠ "" then some filter else none }
  (httpTail "Monitoring API" "Error parsing response: " (env.http req)
    (fun response => toolText (renderMetrics metricType response)), none)

/-- A decoded alert-policy condition. -/
structure AlertCondition where
  name : String
  displayName : String
  severity : String
  deriving DecidableEq, Repr

/-- A decoded alert policy. -/
structure AlertPolicy where
  name : String
  displayName : String
  documentationContent : String
  conditions : List AlertCondition
  enabled : Bool
  deriving DecidableEq, Repr

/-- The decoded `alertPolicies` response body. -/
structure PoliciesResponse where
  alertPolicies : List AlertPolicy
  deriving DecidableEq, Repr

/-- A decoded incident. -/
structure Incident where
  name : String
  resourceName : String
  policyName : String
  conditionName : String
  startTime : String
  endTime : String
  state : String
  summary : String
  documentation : String
  severity : String
  resourceDisplayName : String
  deriving DecidableEq, Repr

/-- The decoded `incidents` response body. -/
structure IncidentsResponse where
  incidents : List Incident
  deriving DecidableEq, Repr

/-- Go map assignment `m[k] = v`: any previous binding is replaced. -/
def mapInsert (m : List (String × β)) (k : String) (v : β) : List (String × β) :=
  (m.filter fun p => p.1 ≠ k) ++ [(k, v)]

/-- Go map lookup `m[k]` with its `ok` flag as an `Option`. -/
def mapFind? (m : List (String × β)) (k : String) : Option β :=
  (m.find? fun p => p.1 = k).map Prod.snd

/-- The per-policy info `handleListAlerts` stores in `policyMap`. -/
structure PolicyInfo where
  displayName : String
  documentation : String
  conditions : List (String × String)
  deriving DecidableEq, Repr

/-- The condition map of one policy. -/
def buildConditions (cs : List AlertCondition) : List (String × String) :=
  cs.foldl (fun m c => mapInsert m c.name c.displayName) []

/-- `policyMap` built from the policies response. -/
def buildPolicyMap (ps : List AlertPolicy) : List (String × PolicyInfo) :=
  ps.foldl (fun m policy =>
    mapInsert m policy.name
      { displayName := policy.displayName,
        documentation := policy.documentationContent,
        conditions := buildConditions policy.conditions }) []

/-- One rendered alert block (for an `OPEN` incident at 0-based slice
index `i`; closed incidents keep their index but render nothing). -/
def renderIncident (policyMap : List (String × PolicyInfo)) (i : Nat)
    (incident : Incident) : String :=
  if incident.state ≠ "OPEN" then ""
  else
    let info := mapFind? policyMap incident.policyName
    let policyDisplayName :=
      match info with
      | some pi => pi.displayName
      | none => "Unknown Policy"
    let conditionDisplayName :=
      match info with
      | some pi =>
          match mapFind? pi.conditions incident.conditionName with
          | some cn => cn
          | none => "Unknown Condition"
      | none => "Unknown Condition"
    let documentation :=
      match info with
      | some pi => pi.documentation
      | none => ""
    "## " ++ toString (i + 1) ++ ". Alert: " ++ incident.resourceDisplayName ++
      "\n\n" ++
    "- **Policy**: " ++ policyDisplayName ++ "\n" ++
    "- **Condition**: " ++ conditionDisplayName ++ "\n" ++
    "- **Severity**: " ++ incident.severity ++ "\n" ++
    "- **Started**: " ++ formatTime incident.startTime ++ "\n" ++
    (if incident.summary ≠ "" then
      "- **Summary**: " ++ incident.summary ++ "\n" else "") ++
    (if documentation ≠ "" then
      "\n### Documentation\n\n" ++ documentation ++ "\n" else "") ++
    "\n"

/-- The incident loop of `handleListAlerts` (indexing runs over the whole
slice, so rendered numbers can skip). -/
def renderIncidentsFrom (policyMap : List (String × PolicyInfo)) (i : Nat) :
    List Incident → String
  | [] => ""
  | inc :: rest =>
      renderIncident policyMap i inc ++ renderIncidentsFrom policyMap (i + 1) rest

/-- Report rendering of `handleListAlerts` given both decoded responses. -/
def renderAlerts (projectID : String) (pols : PoliciesResponse)
    (incs : IncidentsResponse) : String :=
  let activeIncidents :=
    (incs.incidents.filter fun i => i.state = "OPEN").length
  if activeIncidents = 0 then "No active alerts found."
  else
    "# Active Alerts in Project " ++ projectID ++ "\n\n" ++
    "Found " ++ toString activeIncidents ++ " active alerts:\n\n" ++
    renderIncidentsFrom (buildPolicyMap pols.alertPolicies) 0 incs.incidents ++
    "## Recommended Actions\n\n" ++
    "1. Check the affected resources for any recent changes or deployments\n" ++
    "2. Review logs around the time the alert was triggered\n" ++
    "3. Check for related alerts that might indicate a broader issue\n" ++
    "4. Verify resource utilization and performance metrics\n" ++
    "5. Consider scaling resources if the alert is related to resource constraints\n"

/-- Environment for `handleListAlerts`, which performs two sequential
authenticated GET requests (alert policies, then incidents). -/
structure AlertsEnv where
  client : Except String Unit
  httpPolicies : String → HttpOutcome PoliciesResponse
  httpIncidents : String → HttpOutcome IncidentsResponse

/-- `handleListAlerts`. -/
def handleListAlerts (args : Args) (env : AlertsEnv) : HandlerOut :=
  match reqString args "project_id" with
  | .error e => (e, none)
  | .ok projectID =>
  let filter := optString args "filter"
  match env.client with
  | .error e => (toolErr ("Error getting authenticated client: " ++ e), none)
  | .ok _ =>
  let apiURL := gcpMonitoringBaseURL ++ "/projects/" ++ projectID ++
    "/alertPolicies" ++ (if filter ≠ "" then "?filter=" ++ filter else "")
  (httpTail "Monitoring API" "Error parsing alert policies response: "
    (env.httpPolicies apiURL) (fun pols =>
      let incidentsURL := gcpMonitoringBaseURL ++ "/projects/" ++ projectID ++
        "/incidents"
      httpTail "Monitoring API for incidents" "Error parsing incidents response: "
        (env.httpIncidents incidentsURL) (fun incs =>
          toolText (renderAlerts projectID pols incs))), none)

/-! ### JSON values (for `jsonPayload` fields of log entries)

Decoded `map[string]interface{}` payloads.  Go's `json.Marshal` renders
map keys in sorted order; object key lists in this embedding stand for
the decoded maps with their keys already in that canonical sorted order,
so marshalling keeps the given order. -/

/-- A decoded JSON value. -/
inductive Json where
  | str (s : String)
  | num (q : ℚ)
  | jbool (b : Bool)
  | null
  | arr (xs : List Json)
  | obj (kvs : List (String × Json))
  deriving Repr

/-- JSON string escaping as Go `encoding/json` performs it (quote,
backslash, the common control characters, and the HTML-escaped
`<`, `>`, `&`). -/
def jsonEscChar (c : Char) : String :=
  if c = '"' then "\\\""
  else if c = '\\' then "\\\\"
  else if c = '\n' then "\\n"
  else if c = '\r' then "\\r"
  else if c = '\t' then "\\t"
  else if c = '<' then "\\u003c"
  else if c = '>' then "\\u003e"
  else if c = '&' then "\\u0026"
  else String.singleton c

/-- A JSON-quoted string literal. -/
def jsonQuote (s : String) : String :=
  "\"" ++ String.join (s.toList.map jsonEscChar) ++ "\""

/-- Decimal rendering of a JSON number.  Numbers decoded from JSON are
float64 values whose shortest decimal form Go reprints; payloads in this
embedding carry that decimal value as a rational. -/
def jsonNum (q : ℚ) : String :=
  if q.den = 1 then toString q.num
  else
    let a := |q|
    (if q < 0 then "-" else "") ++
    match (List.range 17).find? fun k => ((a * (10 : ℚ) ^ (k + 1)).den = 1) with
    | some k =>
        let scale : Nat := 10 ^ (k + 1)
        let scaled := (a * (scale : ℚ)).num.toNat
        toString (scaled / scale) ++ "." ++ padZeros (k + 1) (scaled % scale)
    | none => toString ⌊a⌋

/-- The two-space indentation prefix of `json.MarshalIndent(v, "", "  ")`
at nesting depth `d`. -/
def jsonIndentStr (d : Nat) : String := String.join (List.replicate d "  ")

mutual

/-- Go `json.MarshalIndent(v, "", "  ")`. -/
def jsonIndent (d : Nat) : Json → String
  | .str s => jsonQuote s
  | .num q => jsonNum q
  | .jbool b => fmtBool b
  | .null => "null"
  | .arr [] => "[]"
  | .arr (x :: xs) =>
      "[\n" ++ jsonIndentArr (d + 1) x xs ++ "\n" ++ jsonIndentStr d ++ "]"
  | .obj [] => "\x7b\x7d"
  | .obj (p :: ps) =>
      "\x7b\n" ++ jsonIndentObj (d + 1) p ps ++ "\n" ++ jsonIndentStr d ++ "\x7d"
termination_by j => sizeOf j
decreasing_by all_goals (simp_wf <;> omega)

/-- Comma-joined indented array items. -/
def jsonIndentArr (d : Nat) : Json → List Json → String
  | x, [] => jsonIndentStr d ++ jsonIndent d x
  | x, y :: ys => jsonIndentStr d ++ jsonIndent d x ++ ",\n" ++ jsonIndentArr d y ys
termination_by x xs => 1 + sizeOf x + sizeOf xs
decreasing_by all_goals (simp_wf <;> omega)

/-- Comma-joined indented object members. -/
def jsonIndentObj (d : Nat) : String × Json → List (String × Json) → String
  | (k, v), [] => jsonIndentStr d ++ jsonQuote k ++ ": " ++ jsonIndent d v
  | (k, v), p :: ps =>
      jsonIndentStr d ++ jsonQuote k ++ ": " ++ jsonIndent d v ++ ",\n" ++
        jsonIndentObj d p ps
termination_by p ps => 1 + sizeOf p + sizeOf ps
decreasing_by all_goals (simp_wf <;> omega)

end

mutual

/-- Go `json.Marshal` (compact). -/
def jsonMarshal : Json → String
  | .str s => jsonQuote s
  | .num q => jsonNum q
  | .jbool b => fmtBool b
  | .null => "null"
  | .arr xs => "[" ++ jsonMarshalArr xs ++ "]"
  | .obj kvs => "\x7b" ++ jsonMarshalObj kvs ++ "\x7d"

/-- Comma-joined compact array items. -/
def jsonMarshalArr : List Json → String
  | [] => ""
  | [x] => jsonMarshal x
  | x :: y :: xs => jsonMarshal x ++ "," ++ jsonMarshalArr (y :: xs)

/-- Comma-joined compact object members. -/
def jsonMarshalObj : List (String × Json) → String
  | [] => ""
  | [(k, v)] => jsonQuote k ++ ":" ++ jsonMarshal v
  | (k, v) :: p :: xs =>
      jsonQuote k ++ ":" ++ jsonMarshal v ++ "," ++ jsonMarshalObj (p :: xs)

end

mutual

/-- Go `fmt.Sprintf("%v", x)` of a decoded JSON value (a string prints
raw, a map prints as `map[k:v ...]` with sorted keys, `nil` prints
`<nil>`). -/
def govFmt : Json → String
  | .str s => s
  | .num q => jsonNum q
  | .jbool b => fmtBool b
  | .null => "<nil>"
  | .arr xs => "[" ++ govFmtArr xs ++ "]"
  | .obj kvs => "map[" ++ govFmtObj kvs ++ "]"

/-- Space-joined `%v` array items. -/
def govFmtArr : List Json → String
  | [] => ""
  | [x] => govFmt x
  | x :: y :: xs => govFmt x ++ " " ++ govFmtArr (y :: xs)

/-- Space-joined `%v` map items. -/
def govFmtObj : List (String × Json) → String
  | [] => ""
  | [(k, v)] => k ++ ":" ++ govFmt v
  | (k, v) :: p :: xs => k ++ ":" ++ govFmt v ++ " " ++ govFmtObj (p :: xs)

end

/-! ### Logging tools (query_logs, get_pod_logs) -/

/-- `gcpLoggingBaseURL`. -/
def gcpLoggingBaseURL : String := "https://logging.googleapis.com/v2"

/-- A decoded `query_logs` log entry.  The two label lists are Go maps,
their order standing for one `range` iteration order; `jsonPayload` is
`nil` (`none`) or a decoded object. -/
structure LogEntry where
  logName : String
  resourceType : String
  resourceLabels : List (String × String)
  timestamp : String
  severity : String
  textPayload : String
  jsonPayload : Option (List (String × Json))
  labels : List (String × String)

/-- The decoded `query_logs` response body. -/
structure LogsResponse where
  entries : List LogEntry
  nextPageToken : String

/-- The payload block of a rendered log entry.  The
`json.MarshalIndent` error branch cannot fire (the value was itself
decoded from JSON) and is not modelled. -/
def renderLogPayload (e : LogEntry) : String :=
  "- **Payload**:\n" ++
  (if e.textPayload ≠ "" then "```\n" ++ e.textPayload ++ "\n```\n"
   else
     match e.jsonPayload with
     | some kvs => "```json\n" ++ jsonIndent 0 (.obj kvs) ++ "\n```\n"
     | none => "No payload\n")

/-- One rendered `query_logs` entry (the timestamp is emitted verbatim). -/
def renderLogEntry (i : Nat) (e : LogEntry) : String :=
  "### Log Entry " ++ toString i ++ "\n" ++
  "- **Timestamp**: " ++ e.timestamp ++ "\n" ++
  "- **Severity**: " ++ e.severity ++ "\n" ++
  "- **Log Name**: " ++ e.logName ++ "\n" ++
  "- **Resource Type**: " ++ e.resourceType ++ "\n" ++
  (if e.resourceLabels.length > 0 then
    "- **Resource Labels**:\n" ++ renderKVIndent e.resourceLabels else "") ++
  (if e.labels.length > 0 then
    "- **Labels**:\n" ++ renderKVIndent e.labels else "") ++
  renderLogPayload e ++
  "\n"

/-- The entry loop of `handleQueryLogs`. -/
def renderLogEntriesFrom (i : Nat) : List LogEntry → String
  | [] => ""
  | e :: rest => renderLogEntry i e ++ renderLogEntriesFrom (i + 1) rest

/-- Report rendering of `handleQueryLogs`. -/
def renderLogs (r : LogsResponse) : String :=
  if r.entries.length = 0 then "No logs found matching the filter criteria."
  else
    "Found " ++ toString r.entries.length ++
      " log entries matching the filter criteria:\n\n" ++
    renderLogEntriesFrom 1 r.entries ++
    (if r.nextPageToken ≠ "" then
      "Note: There are more log entries available. Refine your filter or increase max_results to see more.\n"
     else "")

/-- The `entries:list` request body `handleQueryLogs` posts. -/
structure LogsRequest where
  resourceNames : List String
  filter : String
  orderBy : String
  pageSize : Int
  deriving DecidableEq, Repr

/-- The time-range clause `handleQueryLogs` appends when the caller's
filter does not already mention `timestamp`. -/
def queryLogsFilter (filter startS endS : String) : String :=
  if hasSub filter "timestamp" then filter
  else
    filter ++ " AND timestamp >= \"" ++ startS ++ "\" AND timestamp <= \"" ++
      endS ++ "\""

/-- `handleQueryLogs`.  `now` is the unix second of `time.Now()`; the
float-to-`Duration` conversion truncates `time_range_hours` to an
integer number of hours. -/
def handleQueryLogs (args : Args) (now : Int)
    (env : TimedHttpEnv LogsRequest LogsResponse) : HandlerOut :=
  match reqString args "project_id" with
  | .error e => (e, none)
  | .ok projectID =>
  match reqString args "filter" with
  | .error e => (e, none)
  | .ok filter =>
  let timeRangeHours := numOrDefault args "time_range_hours" 1
  let maxResults := numOrDefault args "max_results" 50
  match env.client with
  | .error e => (toolErr ("Error getting authenticated client: " ++ e), none)
  | .ok _ =>
  let req : LogsRequest :=
    { resourceNames := ["projects/" ++ projectID],
      filter := queryLogsFilter filter
        (env.fmtRFC (now - 3600 * ⌊timeRangeHours⌋)) (env.fmtRFC now),
      orderBy := "timestamp desc",
      pageSize := ⌊maxResults⌋ }
  (httpTail "Logging API" "Error parsing response: " (env.http req)
    (fun response => toolText (renderLogs response)), none)

/-- A decoded `get_pod_logs` log entry. -/
structure PodLogEntry where
  timestamp : String
  severity : String
  textPayload : String
  jsonPayload : Option (List (String × Json))
  resourceLabels : List (String × String)

/-- The decoded `get_pod_logs` response body. -/
structure PodLogsResponse where
  entries : List PodLogEntry
  nextPageToken : String

/-- The log line text of one pod-log entry (text payload, else the
`message` member of the JSON payload via `%v`, else the compact-marshalled
payload; the `json.Marshal` error branch cannot fire). -/
def podLogLineText (e : PodLogEntry) : String :=
  if e.textPayload ≠ "" then e.textPayload
  else
    match e.jsonPayload with
    | some kvs =>
        match mapFind? kvs "message" with
        | some msg => govFmt msg
        | none => jsonMarshal (.obj kvs)
    | none => ""

/-- One rendered pod-log line: the timestamp is converted by the inline
RFC3339 parse/format pair; the per-entry container name is prepended when
no single container name is in effect. -/
def renderPodLogLine (containerName : String) (e : PodLogEntry) : String :=
  let timestamp := formatTime e.timestamp
  let entryContainer := (mapFind? e.resourceLabels "container_name").getD ""
  if containerName = "" then
    "[" ++ timestamp ++ "] [" ++ entryContainer ++ "] " ++ podLogLineText e ++ "\n"
  else
    "[" ++ timestamp ++ "] " ++ podLogLineText e ++ "\n"

/-- The body loop of `handleGetPodLogs`, which walks the entries slice
backwards (oldest first). -/
def renderPodLogLines (containerName : String) (es : List PodLogEntry) : String :=
  (es.reverse.map (renderPodLogLine containerName)).foldl (· ++ ·) ""

/-- Report rendering of `handleGetPodLogs`. -/
def renderPodLogs (podName namespaceName containerName : String)
    (timeRangeHours : ℚ) (r : PodLogsResponse) : String :=
  if r.entries.length = 0 then
    "No logs found for pod " ++ podName ++ " in namespace " ++ namespaceName ++ "."
  else
    let containerName :=
      if containerName = "" then
        match r.entries with
        | e :: _ => (mapFind? e.resourceLabels "container_name").getD ""
        | [] => containerName
      else containerName
    "## Logs for pod " ++ podName ++
    (if containerName ≠ "" then ", container " ++ containerName else "") ++
    " in namespace " ++ namespaceName ++ "\n\n" ++
    "Found " ++ toString r.entries.length ++ " log entries in the last " ++
      fmtF1 timeRangeHours ++ " hours:\n\n" ++
    "```\n" ++ renderPodLogLines containerName r.entries ++ "```\n\n" ++
    (if r.nextPageToken ≠ "" then
      "Note: There are more log entries available. Increase time_range_hours or max_results to see more.\n"
     else "")

/-- `handleGetPodLogs`. -/
def handleGetPodLogs (args : Args) (now : Int)
    (env : TimedHttpEnv LogsRequest PodLogsResponse) : HandlerOut :=
  match reqString args "project_id" with
  | .error e => (e, none)
  | .ok projectID =>
  match reqString args "location" with
  | .error e => (e, none)
  | .ok location =>
  match reqString args "cluster_name" with
  | .error e => (e, none)
  | .ok clusterName =>
  match reqString args "namespace" with
  | .error e => (e, none)
  | .ok namespaceName =>
  match reqString args "pod_name" with
  | .error e => (e, none)
  | .ok podName =>
  let containerName := optString args "container_name"
  let timeRangeHours := numOrDefault args "time_range_hours" 1
  let maxResults := numOrDefault args "max_results" 100
  match env.client with
  | .error e => (toolErr ("Error getting authenticated client: " ++ e), none)
  | .ok _ =>
  let filter :=
    "resource.type=\"k8s_container\"" ++
    "\n\t\tAND resource.labels.project_id=\"" ++ projectID ++ "\"" ++
    "\n\t\tAND resource.labels.location=\"" ++ location ++ "\"" ++
    "\n\t\tAND resource.labels.cluster_name=\"" ++ clusterName ++ "\"" ++
    "\n\t\tAND resource.labels.namespace_name=\"" ++ namespaceName ++ "\"" ++
    "\n\t\tAND resource.labels.pod_name=\"" ++ podName ++ "\"" ++
    (if containerName ≠ "" then
      " AND resource.labels.container_name=\"" ++ containerName ++ "\"" else "") ++
    " AND timestamp >= \"" ++ env.fmtRFC (now - 3600 * ⌊timeRangeHours⌋) ++
    "\" AND timestamp <= \"" ++ env.fmtRFC now ++ "\""
  let req : LogsRequest :=
    { resourceNames := ["projects/" ++ projectID],
      filter := filter,
      orderBy := "timestamp desc",
      pageSize := ⌊maxResults⌋ }
  (httpTail "Logging API" "Error parsing response: " (env.http req)
    (fun response =>
      toolText (renderPodLogs podName namespaceName containerName
        timeRangeHours response)), none)

/-! ### GCP issues tools (list_active_issues, get_issue_details), via the
Error Reporting SDK -/

/-- A decoded `ServiceContext` (service, version). -/
structure ServiceContext where
  service : String
  version : String
  deriving DecidableEq, Repr

/-- One `ErrorGroupStats` entry.  The protobuf timestamps are rendered by
`AsTime().Format(time.RFC3339)`; the optional string fields carry that
RFC3339 rendering directly. -/
structure ErrorGroupStats where
  groupName : String
  count : Int
  firstSeenTime : Option String
  lastSeenTime : Option String
  affectedServices : List ServiceContext
  deriving DecidableEq, Repr

/-- Go `strings.Split(s, "/")` followed by taking the last element (the
group id suffix of `projects/<p>/groups/<id>`). -/
def lastSlashPart (s : String) : String :=
  (s.splitOn "/").getLastD ""

/-- The affected-services lines of one error group. -/
def renderAffected : List ServiceContext → String
  | [] => ""
  | svc :: rest =>
      "     - " ++ svc.service ++ " (version: " ++ svc.version ++ ")\n" ++
        renderAffected rest

/-- One rendered error-group block of the `list_active_issues` report. -/
def renderGroupStat (i : Nat) (stat : ErrorGroupStats) : String :=
  let groupID := lastSlashPart stat.groupName
  toString i ++ ". Error Group: " ++ groupID ++ "\n" ++
  "   Count: " ++ toString stat.count ++ " occurrences\n" ++
  (match stat.firstSeenTime with
   | some t => "   First seen: " ++ t ++ "\n"
   | none => "") ++
  (match stat.lastSeenTime with
   | some t => "   Last seen: " ++ t ++ "\n"
   | none => "") ++
  (if stat.affectedServices.length > 0 then
    "   Affected services:\n" ++ renderAffected stat.affectedServices else "") ++
  "\n"

/-- The group loop of `handleListActiveIssues`. -/
def renderGroupStatsFrom (i : Nat) : List ErrorGroupStats → String
  | [] => ""
  | s :: rest => renderGroupStat i s ++ renderGroupStatsFrom (i + 1) rest

/-- Report rendering of `handleListActiveIssues`. -/
def renderActiveIssues (projectID : String) (stats : List ErrorGroupStats) : String :=
  if stats.length = 0 then "No active issues found in the specified time range."
  else
    "Found " ++ toString stats.length ++ " active issues in project " ++
      projectID ++ ":\n\n" ++
    renderGroupStatsFrom 1 stats ++
    "To get more details about a specific error group, use the get_issue_details tool."

/-- The `ListGroupStatsRequest` `handleListActiveIssues` sends: project
name, the fixed one-day query time range, the page size, and the fixed
alignment. -/
structure ListGroupStatsRequest where
  projectName : String
  period : String
  pageSize : Int
  alignment : String
  deriving DecidableEq, Repr

/-- The `max_results` extraction of `handleListActiveIssues`:
`maxResults := int32(10); if val, ok := args["max_results"].(float64); ok
&& val > 0 { maxResults = int32(val) }` (float-to-`int32` conversion
truncates). -/
def listActiveIssuesMaxResults (args : Args) : Int :=
  match lookupArg args "max_results" with
  | some (.num v) => if 0 < v then ⌊v⌋ else 10
  | _ => 10

/-- The request `handleListActiveIssues` builds once validation passes
(documentation.go, `ListGroupStatsRequest` literal): the commented-out
`time_range_hours` extraction is dead code and the time range is the
constant `PERIOD_1_DAY`. -/
def listActiveIssuesRequest (args : Args) : Option ListGroupStatsRequest :=
  match reqString args "project_id" with
  | .error _ => none
  | .ok projectID =>
      some { projectName := "projects/" ++ projectID,
             period := "PERIOD_1_DAY",
             pageSize := listActiveIssuesMaxResults args,
             alignment := "ALIGNMENT_EQUAL_ROUNDED" }

/-- Environment for `handleListActiveIssues`: the
`authHandler.GetClientOptions` outcome, the `NewErrorStatsClient`
construction outcome, and the stub `ListGroupStats` iterator drained into
a list (or the first iteration error). -/
structure GroupStatsEnv where
  opts : Except String Unit
  newClient : Except String Unit
  stats : ListGroupStatsRequest → Except String (List ErrorGroupStats)

/-- `handleListActiveIssues`. -/
def handleListActiveIssues (args : Args) (env : GroupStatsEnv) : HandlerOut :=
  match reqString args "project_id" with
  | .error e => (e, none)
  | .ok projectID =>
  let maxResults := listActiveIssuesMaxResults args
  match env.opts with
  | .error e => (toolErr ("Error getting client options: " ++ e), none)
  | .ok _ =>
  match env.newClient with
  | .error e => (toolErr ("Error creating Error Reporting client: " ++ e), none)
  | .ok _ =>
  let req : ListGroupStatsRequest :=
    { projectName := "projects/" ++ projectID,
      period := "PERIOD_1_DAY",
      pageSize := maxResults,
      alignment := "ALIGNMENT_EQUAL_ROUNDED" }
  match env.stats req with
  | .error e => (toolErr ("Error iterating through error groups: " ++ e), none)
  | .ok errorGroupStats =>
      (toolText (renderActiveIssues projectID errorGroupStats), none)

/-- A decoded error-event report location. -/
structure ReportLocation where
  filePath : String
  lineNumber : Int
  functionName : String
  deriving DecidableEq, Repr

/-- A decoded error-event HTTP request context. -/
structure HttpRequestContext where
  method : String
  url : String
  remoteIp : String
  userAgent : String
  referrer : String
  deriving DecidableEq, Repr

/-- A decoded error-event context. -/
structure ErrorContext where
  reportLocation : Option ReportLocation
  httpRequest : Option HttpRequestContext
  deriving DecidableEq, Repr

/-- One `ErrorEvent`.  `eventTime` carries the `AsTime().Format(RFC3339)`
rendering of the protobuf timestamp. -/
structure ErrorEvent where
  eventTime : Option String
  serviceContext : Option ServiceContext
  context : Option ErrorContext
  message : String
  deriving DecidableEq, Repr

/-- One rendered error-event block of the `get_issue_details` report. -/
def renderErrorEvent (i : Nat) (event : ErrorEvent) : String :=
  "#### Event " ++ toString i ++ "\n" ++
  (match event.eventTime with
   | some t => "- Time: " ++ t ++ "\n"
   | none => "") ++
  (match event.serviceContext with
   | some sc => "- Service: " ++ sc.service ++ " (version: " ++ sc.version ++ ")\n"
   | none => "") ++
  (match event.context with
   | some ctx =>
       (match ctx.reportLocation with
        | some loc =>
            "- Location: " ++ loc.filePath ++ ":" ++ toString loc.lineNumber ++
              " in " ++ loc.functionName ++ "\n"
        | none => "") ++
       (match ctx.httpRequest with
        | some hr =>
            "- Request: " ++ hr.method ++ " " ++ hr.url ++ "\n" ++
            (if hr.remoteIp ≠ "" then "  - IP: " ++ hr.remoteIp ++ "\n" else "") ++
            (if hr.userAgent ≠ "" then
              "  - User-Agent: " ++ hr.userAgent ++ "\n" else "") ++
            (if hr.referrer ≠ "" then
              "  - Referrer: " ++ hr.referrer ++ "\n" else "")
        | none => "")
   | none => "") ++
  (if event.message ≠ "" then
    "- Error Message:\n```\n" ++ event.message ++ "\n```\n" else "") ++
  "\n"

/-- The event loop of `handleGetIssueDetails`. -/
def renderErrorEventsFrom (i : Nat) : List ErrorEvent → String
  | [] => ""
  | e :: rest => renderErrorEvent i e ++ renderErrorEventsFrom (i + 1) rest

/-- Report rendering of `handleGetIssueDetails` (note: even with zero
events this is a full multi-section report, not a single sentence). -/
def renderIssueDetails (errorGroupID : String) (events : List ErrorEvent) : String :=
  "## Error Group: " ++ errorGroupID ++ "\n\n" ++
  "### Recent Error Events\n\n" ++
  (if events.length = 0 then "No recent error events found.\n"
   else renderErrorEventsFrom 1 events) ++
  "### Potential Causes and Solutions\n\n" ++
  "1. Check the error messages and stack traces for clues about the root cause.\n" ++
  "2. Look for patterns in the affected services and versions.\n" ++
  "3. Check recent deployments or changes to affected services.\n" ++
  "4. Examine logs around the time of the errors for related issues.\n" ++
  "5. Consider temporary mitigations like rolling back to a previous version if errors persist.\n"

/-- The `ListEventsRequest` `handleGetIssueDetails` sends. -/
structure ListEventsRequest where
  projectName : String
  groupId : String
  pageSize : Int
  deriving DecidableEq, Repr

/-- Environment for `handleGetIssueDetails`. -/
structure EventsEnv where
  opts : Except String Unit
  newClient : Except String Unit
  events : ListEventsRequest → Except String (List ErrorEvent)

/-- `handleGetIssueDetails`. -/
def handleGetIssueDetails (args : Args) (env : EventsEnv) : HandlerOut :=
  match reqString args "project_id" with
  | .error e => (e, none)
  | .ok projectID =>
  match reqString args "error_group_id" with
  | .error e => (e, none)
  | .ok errorGroupID =>
  match env.opts with
  | .error e => (toolErr ("Error getting client options: " ++ e), none)
  | .ok _ =>
  match env.newClient with
  | .error e => (toolErr ("Error creating Error Reporting client: " ++ e), none)
  | .ok _ =>
  let req : ListEventsRequest :=
    { projectName := "projects/" ++ projectID,
      groupId := errorGroupID,
      pageSize := 10 }
  match env.events req with
  | .error e => (toolErr ("Error iterating through error events: " ++ e), none)
  | .ok errorEvents =>
      (toolText (renderIssueDetails errorGroupID errorEvents), none)

/-! ### Statement-level predicates and fixtures -/

/-- A supplied optional-numeric argument value the extraction pattern
rejects: not a float64, or not strictly positive. -/
def badNumV : Value → Bool
  | .str _ => true
  | .bool _ => true
  | .num q => decide (q ≤ 0)

/-- Some collaborator consulted by a single-request HTTP handler fails:
the authenticated client cannot be produced, or every request the stub
could be asked answers with a transport error, a non-2xx status or an
undecodable payload. -/
def env1Fails (env : HttpEnv ρ α) : Prop :=
  exceptBad env.client = true ∨ ∀ r, httpOutcomeFails (env.http r) = true

/-- `env1Fails` for the clock-reading handlers. -/
def timedEnvFails (env : TimedHttpEnv ρ α) : Prop :=
  exceptBad env.client = true ∨ ∀ r, httpOutcomeFails (env.http r) = true

/-- Some collaborator consulted by `handleListAlerts` fails. -/
def alertsEnvFails (env : AlertsEnv) : Prop :=
  exceptBad env.client = true ∨
  (∀ u, httpOutcomeFails (env.httpPolicies u) = true) ∨
  (∀ u, httpOutcomeFails (env.httpIncidents u) = true)

/-- Some collaborator consulted by `handleListActiveIssues` fails. -/
def groupStatsEnvFails (env : GroupStatsEnv) : Prop :=
  exceptBad env.opts = true ∨ exceptBad env.newClient = true ∨
  ∀ r, exceptBad (env.stats r) = true

/-- Some collaborator consulted by `handleGetIssueDetails` fails. -/
def eventsEnvFails (env : EventsEnv) : Prop :=
  exceptBad env.opts = true ∨ exceptBad env.newClient = true ∨
  ∀ r, exceptBad (env.events r) = true

/-- Two decoded `get_cluster_info` payloads denoting the same response:
equal in every field, with the resource-label association lists (the two
`range` presentations of the same decoded Go map) permutations of each
other. -/
def clusterSameMap (p₁ p₂ : ClusterDetail) : Prop :=
  p₂ = { p₁ with resourceLabels := p₂.resourceLabels } ∧
  p₁.resourceLabels.Perm p₂.resourceLabels

/-- Two decoded node pools denoting the same response entry (label maps
up to permutation). -/
def poolSameMap (p₁ p₂ : NodePool) : Prop :=
  p₂ = { p₁ with labels := p₂.labels } ∧ p₁.labels.Perm p₂.labels

/-- Two decoded `list_node_pools` payloads denoting the same response. -/
def poolsSameMap (r₁ r₂ : NodePoolsResponse) : Prop :=
  List.Forall₂ poolSameMap r₁.nodePools r₂.nodePools

/-- Two decoded `query_logs` entries denoting the same response entry
(the two label maps up to permutation). -/
def logEntrySameMap (e₁ e₂ : LogEntry) : Prop :=
  e₂ = { e₁ with resourceLabels := e₂.resourceLabels, labels := e₂.labels } ∧
  e₁.resourceLabels.Perm e₂.resourceLabels ∧ e₁.labels.Perm e₂.labels

/-- Two decoded `query_logs` payloads denoting the same response. -/
def logsSameMap (r₁ r₂ : LogsResponse) : Prop :=
  List.Forall₂ logEntrySameMap r₁.entries r₂.entries ∧
  r₁.nextPageToken = r₂.nextPageToken

/-- Fixture: a stub transport whose every answer is HTTP 404. -/
def env404Cluster : HttpEnv String ClusterDetail :=
  { client := .ok (), http := fun _ => .resp 404 "404 Not Found" (.error "eof") }

/-- Fixture: a stub transport answering `list_clusters` with zero
clusters. -/
def envEmptyClusters : HttpEnv String ClustersResponse :=
  { client := .ok (), http := fun _ => .resp 200 "200 OK" (.ok ⟨[]⟩) }

/-- Fixture: a stub logging transport answering with zero entries. -/
def envEmptyLogs : TimedHttpEnv LogsRequest LogsResponse :=
  { client := .ok (), fmtRFC := fun _ => "",
    http := fun _ => .resp 200 "200 OK" (.ok ⟨[], ""⟩) }

/-- Fixture: a stub Error Reporting collaborator answering
`get_issue_details` with zero events. -/
def envEmptyEvents : EventsEnv :=
  { opts := .ok (), newClient := .ok (), events := fun _ => .ok [] }

/-- Fixture: a stub Error Reporting collaborator answering
`list_active_issues` with zero groups. -/
def envEmptyStats : GroupStatsEnv :=
  { opts := .ok (), newClient := .ok (), stats := fun _ => .ok [] }

/-- Fixture: the `get_cluster_info` arguments of the 404 scenario. -/
def scenarioClusterArgs : Args :=
  [("project_id", .str "p"), ("location", .str "us-central1"),
   ("cluster_name", .str "c")]

/-- Fixture: a decoded cluster whose `createTime` is a well-formed
RFC3339 instant (all other fields blank). -/
def demoCluster : Cluster :=
  { name := "c", description := "", location := "", status := "",
    nodeCount := 0, masterVersion := "", nodeVersion := "", network := "",
    subnetwork := "", clusterIpv4Cidr := "", servicesIpv4Cidr := "",
    endpoint := "", createTime := "2024-01-02T03:04:05Z" }

/-- Fixture: a decoded cluster detail with a two-entry resource-label
map, presented in the order `a` then `b`. -/
def labelsClusterA : ClusterDetail :=
  { name := "c", description := "", location := "", status := "",
    nodeCount := 0, masterVersion := "", nodeVersion := "", network := "",
    subnetwork := "", clusterIpv4Cidr := "", servicesIpv4Cidr := "",
    endpoint := "", createTime := "", mwStartTime := "", mwDuration := "",
    httpLoadBalancingDisabled := false,
    horizontalPodAutoscalingDisabled := false,
    kubernetesDashboardDisabled := false,
    networkPolicyConfigDisabled := false,
    locations := [], resourceLabels := [("a", "1"), ("b", "2")] }

/-- Fixture: the same decoded cluster detail with the label map presented
in the order `b` then `a`. -/
def labelsClusterB : ClusterDetail :=
  { labelsClusterA with resourceLabels := [("b", "2"), ("a", "1")] }

/-- Fixture: a stub transport answering `list_clusters` with exactly
`demoCluster`. -/
def envOneCluster : HttpEnv String ClustersResponse :=
  { client := .ok (), http := fun _ => .resp 200 "200 OK" (.ok ⟨[demoCluster]⟩) }

/-- Fixture: a stub monitoring transport answering `query_metrics` with
zero time series. -/
def envEmptyMetrics : TimedHttpEnv MetricsRequest MetricsResponse :=
  { client := .ok (), fmtRFC := fun _ => "",
    http := fun _ => .resp 200 "200 OK" (.ok ⟨[], [], []⟩) }

/-! ### Helper lemmas -/

theorem reqString_ok {args : Args} {k : String}
    (h : strOkB (lookupArg args k) = true) :
    reqString args k = .ok (argStr args k) := by
  unfold reqString argStr
  cases hv : lookupArg args k with
  | none => rw [hv] at h; simp [strOkB] at h
  | some v =>
    cases v with
    | str s =>
        rw [hv] at h
        simp only [strOkB, Bool.not_eq_true', beq_eq_false_iff_ne, ne_eq] at h
        simp [h]
    | num q => rw [hv] at h; simp [strOkB] at h
    | bool b => rw [hv] at h; simp [strOkB] at h

theorem reqString_err {args : Args} {k : String}
    (h : strOkB (lookupArg args k) = false) :
    reqString args k = .error (toolErr (k ++ " must be a non-empty string")) := by
  unfold reqString
  cases hv : lookupArg args k with
  | none => rfl
  | some v =>
    cases v with
    | str s =>
        rw [hv] at h
        simp only [strOkB, Bool.not_eq_false', beq_iff_eq] at h
        simp [h]
    | num q => rfl
    | bool b => rfl

theorem httpTail_isError {o : HttpOutcome α} {f : α → CallResult}
    {n p : String} (h : httpOutcomeFails o = true) :
    (httpTail n p o f).isError = true := by
  cases o with
  | doFail e => rfl
  | resp code st dec =>
      by_cases hc : code = 200
      · subst hc
        simp only [httpOutcomeFails] at h
        simp at h
        cases dec with
        | error e => simp [httpTail, toolErr]
        | ok a => simp [exceptBad] at h
      · simp [httpTail, hc, toolErr]

theorem httpTail_status {code : Nat} {st : String} {dec : Except String α}
    {f : α → CallResult} {n p : String} (h : code ≠ 200) :
    httpTail n p (.resp code st dec) f =
      toolErr ("Error from " ++ n ++ ": " ++ st) := by
  simp [httpTail, h]

theorem lookup_set_eq {args : Args} {k : String} {v : Value} :
    lookupArg (setArg args k v) k = some v := by
  simp [setArg, lookupArg]

theorem lookup_set_ne {args : Args} {k k' : String} {v : Value} (h : k ≠ k') :
    lookupArg (setArg args k v) k' = lookupArg args k' := by
  simp [setArg, lookupArg, h]

theorem reqString_congr {a b : Args} {k : String}
    (h : lookupArg a k = lookupArg b k) : reqString a k = reqString b k := by
  unfold reqString; rw [h]

theorem argStr_congr {a b : Args} {k : String}
    (h : lookupArg a k = lookupArg b k) : argStr a k = argStr b k := by
  unfold argStr; rw [h]

theorem optString_congr {a b : Args} {k : String}
    (h : lookupArg a k = lookupArg b k) : optString a k = optString b k :=
  argStr_congr h

theorem numOrDefault_congr {a b : Args} {k : String} {d : ℚ}
    (h : lookupArg a k = lookupArg b k) : numOrDefault a k d = numOrDefault b k d := by
  unfold numOrDefault; rw [h]

theorem numOrDefault_none {args : Args} {k : String} {d : ℚ}
    (h : lookupArg args k = none) : numOrDefault args k d = d := by
  unfold numOrDefault; rw [h]

theorem numOrDefault_set_self {args : Args} {k : String} {d : ℚ} (hd : 0 < d) :
    numOrDefault (setArg args k (.num d)) k d = d := by
  unfold numOrDefault; rw [lookup_set_eq]; simp [hd]

theorem numOrDefault_set_bad {args : Args} {k : String} {d : ℚ} {v : Value}
    (h : badNumV v = true) : numOrDefault (setArg args k v) k d = d := by
  unfold numOrDefault
  rw [lookup_set_eq]
  cases v with
  | str s => rfl
  | bool b => rfl
  | num q =>
      simp only [badNumV, decide_eq_true_eq] at h
      simp [not_lt.mpr h]

theorem lamr_congr {a b : Args}
    (h : lookupArg a "max_results" = lookupArg b "max_results") :
    listActiveIssuesMaxResults a = listActiveIssuesMaxResults b := by
  unfold listActiveIssuesMaxResults; rw [h]

theorem lamr_none {args : Args} (h : lookupArg args "max_results" = none) :
    listActiveIssuesMaxResults args = 10 := by
  unfold listActiveIssuesMaxResults; rw [h]

theorem lamr_set_bad {args : Args} {v : Value} (h : badNumV v = true) :
    listActiveIssuesMaxResults (setArg args "max_results" v) = 10 := by
  unfold listActiveIssuesMaxResults
  rw [lookup_set_eq]
  cases v with
  | str s => rfl
  | bool b => rfl
  | num q =>
      simp only [badNumV, decide_eq_true_eq] at h
      simp [not_lt.mpr h]

theorem httpTail_isError_cont {o : HttpOutcome α} {k : α → CallResult}
    {n p : String} (h : ∀ a, (k a).isError = true) :
    (httpTail n p o k).isError = true := by
  cases o with
  | doFail e => rfl
  | resp code st dec =>
      by_cases hc : code = 200
      · subst hc
        cases dec with
        | error e => simp [httpTail, toolErr]
        | ok a => simpa [httpTail] using h a
      · simp [httpTail, hc, toolErr]

theorem upgradeIter_fixed (h : OAuthHandler)
    (hs : h.currentScopes = ReadOnlyScopes) :
    ∀ n, (upgradeIter n h).currentScopes = ReadOnlyScopes := by
  intro n
  induction n generalizing h with
  | zero => simpa [upgradeIter] using hs
  | succ n ih =>
      have hfix : (upgradePermissions h).1 = h := by
        unfold upgradePermissions
        rw [hs]
        simp [ReadOnlyScopes, ReadWriteScopes]
      simp only [upgradeIter]
      rw [hfix]
      exact ih h hs

/-! ### Claim theorems -/

/-- C8: an `OAuthHandler` created by `NewOAuthHandler` starts with
`ReadOnlyScopes`, and because `UpgradePermissions` returns early whenever
`len(currentScopes) == len(ReadWriteScopes)` — and both scope lists have
five entries — its scopes are still `ReadOnlyScopes` after any sequence
of `UpgradePermissions` calls. -/
theorem claim_C8_upgrade_never_changes_scopes :
    ∀ (cid cs cf : String) (h : OAuthHandler),
      newOAuthHandler cid cs cf = .ok h →
      ∀ n : Nat, (upgradeIter n h).currentScopes = ReadOnlyScopes := by
  intro cid cs cf h hok n
  have hscopes : h.currentScopes = ReadOnlyScopes := by
    unfold newOAuthHandler at hok
    split at hok
    · exact absurd hok (by simp)
    · cases hok; rfl
  exact upgradeIter_fixed h hscopes n

/-- C8 witness: a concrete handler built from concrete credentials keeps
`ReadOnlyScopes` across three upgrade calls. -/
theorem claim_C8_witness :
    (upgradeIter 3
      { clientID := "id", clientSecret := "secret",
        currentScopes := ReadOnlyScopes,
        credentialsFile := "" }).currentScopes = ReadOnlyScopes :=
  claim_C8_upgrade_never_changes_scopes "id" "secret" "" _ (by rfl) 3

/-- C3 counterexample: after one full `RegisterTools` run the registry
already holds `list_clusters`, yet running the whole registration again —
re-registering every existing name, `list_clusters` included — produces
no error: duplicate registration is not detected. -/
theorem claim_C3_counterexample :
    "list_clusters" ∈ serverOnce ∧
      exceptBad (registerTools serverOnce) = false := by
  decide

/-- C3 amended: registering a tool name that already exists does not
fail: `AddToolSafe` has no error path (it forwards to the server's
`AddTool` map assignment, which silently replaces the entry), each area's
`register*Tools` function unconditionally returns `nil`, so
`RegisterTools` succeeds on any starting registry — re-registering the
full registry is a no-op rather than an error. -/
theorem claim_C3_amended :
    (∀ ts : List String, exceptBad (registerTools ts) = false) ∧
      registerTools serverOnce = .ok serverOnce := by
  constructor
  · intro ts; rfl
  · rfl

/-- C9: `list_active_issues` ignores its declared `time_range_hours`
parameter: the request it builds always carries the fixed time range
`PERIOD_1_DAY`, and two invocations whose argument maps agree everywhere
except on `time_range_hours` build the same request and produce the same
result. -/
theorem claim_C9_time_range_ignored :
    (∀ (args : Args) (r : ListGroupStatsRequest),
      listActiveIssuesRequest args = some r → r.period = "PERIOD_1_DAY") ∧
    (∀ (args₁ args₂ : Args) (env : GroupStatsEnv),
      (∀ k, k ≠ "time_range_hours" → lookupArg args₁ k = lookupArg args₂ k) →
      listActiveIssuesRequest args₁ = listActiveIssuesRequest args₂ ∧
      handleListActiveIssues args₁ env = handleListActiveIssues args₂ env) := by
  constructor
  · intro args r h
    unfold listActiveIssuesRequest at h
    split at h
    · exact absurd h (by simp)
    · cases h; rfl
  · intro args₁ args₂ env h
    have hp := h "project_id" (by decide)
    have hm := h "max_results" (by decide)
    constructor
    · unfold listActiveIssuesRequest
      rw [reqString_congr hp, lamr_congr hm]
    · unfold handleListActiveIssues
      rw [reqString_congr hp, lamr_congr hm]

/-- C9 witness: with `time_range_hours` 5 supplied versus absent (same
project), the built request and the handler result coincide. -/
theorem claim_C9_witness :
    listActiveIssuesRequest
        [("project_id", .str "p"), ("time_range_hours", .num 5)] =
      listActiveIssuesRequest [("project_id", .str "p")] ∧
    handleListActiveIssues
        [("project_id", .str "p"), ("time_range_hours", .num 5)] envEmptyStats =
      handleListActiveIssues [("project_id", .str "p")] envEmptyStats := by
  refine claim_C9_time_range_ignored.2 _ _ _ ?_
  intro k hk
  simp [lookupArg, Ne.symm hk]

/-- C7: when an optional numeric argument is absent the handler proceeds
exactly as if the declared per-tool default had been supplied
(`time_range_hours` 1 for `query_logs` and `get_pod_logs`; `max_results`
50 for `query_logs`, 100 for `get_pod_logs`, 5 for the documentation
searches), and an absent optional field never yields a validation error
(a fully valid `query_logs` call with both optionals absent succeeds). -/
theorem claim_C7_optional_defaults :
    (∀ (args : Args) (now : Int) (env : TimedHttpEnv LogsRequest LogsResponse),
      lookupArg args "time_range_hours" = none →
      handleQueryLogs args now env =
        handleQueryLogs (setArg args "time_range_hours" (.num 1)) now env) ∧
    (∀ (args : Args) (now : Int) (env : TimedHttpEnv LogsRequest LogsResponse),
      lookupArg args "max_results" = none →
      handleQueryLogs args now env =
        handleQueryLogs (setArg args "max_results" (.num 50)) now env) ∧
    (∀ (args : Args) (now : Int) (env : TimedHttpEnv LogsRequest PodLogsResponse),
      lookupArg args "time_range_hours" = none →
      handleGetPodLogs args now env =
        handleGetPodLogs (setArg args "time_range_hours" (.num 1)) now env) ∧
    (∀ (args : Args) (now : Int) (env : TimedHttpEnv LogsRequest PodLogsResponse),
      lookupArg args "max_results" = none →
      handleGetPodLogs args now env =
        handleGetPodLogs (setArg args "max_results" (.num 100)) now env) ∧
    (∀ args : Args, lookupArg args "max_results" = none →
      handleSearchGCPDocs args =
        handleSearchGCPDocs (setArg args "max_results" (.num 5))) ∧
    (∀ args : Args, lookupArg args "max_results" = none →
      handleSearchK8sDocs args =
        handleSearchK8sDocs (setArg args "max_results" (.num 5))) ∧
    (handleQueryLogs [("project_id", .str "p"), ("filter", .str "f")] 0
        envEmptyLogs).1.isError = false := by
  refine ⟨?_, ?_, ?_, ?_, ?_, ?_, by rfl⟩
  · intro args now env h
    have h1 : reqString (setArg args "time_range_hours" (Value.num 1))
        "project_id" = reqString args "project_id" :=
      reqString_congr (lookup_set_ne (by decide))
    have h2 : reqString (setArg args "time_range_hours" (Value.num 1))
        "filter" = reqString args "filter" :=
      reqString_congr (lookup_set_ne (by decide))
    have h3 : numOrDefault (setArg args "time_range_hours" (Value.num 1))
        "max_results" 50 = numOrDefault args "max_results" 50 :=
      numOrDefault_congr (lookup_set_ne (by decide))
    have h4 : numOrDefault (setArg args "time_range_hours" (Value.num 1))
        "time_range_hours" 1 = 1 := numOrDefault_set_self (by norm_num)
    have h5 : numOrDefault args "time_range_hours" 1 = 1 := numOrDefault_none h
    unfold handleQueryLogs
    rw [h1, h2, h3, h4, h5]
  · intro args now env h
    have h1 : reqString (setArg args "max_results" (Value.num 50))
        "project_id" = reqString args "project_id" :=
      reqString_congr (lookup_set_ne (by decide))
    have h2 : reqString (setArg args "max_results" (Value.num 50))
        "filter" = reqString args "filter" :=
      reqString_congr (lookup_set_ne (by decide))
    have h3 : numOrDefault (setArg args "max_results" (Value.num 50))
        "time_range_hours" 1 = numOrDefault args "time_range_hours" 1 :=
      numOrDefault_congr (lookup_set_ne (by decide))
    have h4 : numOrDefault (setArg args "max_results" (Value.num 50))
        "max_results" 50 = 50 := numOrDefault_set_self (by norm_num)
    have h5 : numOrDefault args "max_results" 50 = 50 := numOrDefault_none h
    unfold handleQueryLogs
    rw [h1, h2, h3, h4, h5]
  · intro args now env h
    have h1 : reqString (setArg args "time_range_hours" (Value.num 1))
        "project_id" = reqString args "project_id" :=
      reqString_congr (lookup_set_ne (by decide))
    have h2 : reqString (setArg args "time_range_hours" (Value.num 1))
        "location" = reqString args "location" :=
      reqString_congr (lookup_set_ne (by decide))
    have h3 : reqString (setArg args "time_range_hours" (Value.num 1))
        "cluster_name" = reqString args "cluster_name" :=
      reqString_congr (lookup_set_ne (by decide))
    have h4 : reqString (setArg args "time_range_hours" (Value.num 1))
        "namespace" = reqString args "namespace" :=
      reqString_congr (lookup_set_ne (by decide))
    have h5 : reqString (setArg args "time_range_hours" (Value.num 1))
        "pod_name" = reqString args "pod_name" :=
      reqString_congr (lookup_set_ne (by decide))
    have h6 : optString (setArg args "time_range_hours" (Value.num 1))
        "container_name" = optString args "container_name" :=
      optString_congr (lookup_set_ne (by decide))
    have h7 : numOrDefault (setArg args "time_range_hours" (Value.num 1))
        "max_results" 100 = numOrDefault args "max_results" 100 :=
      numOrDefault_congr (lookup_set_ne (by decide))
    have h8 : numOrDefault (setArg args "time_range_hours" (Value.num 1))
        "time_range_hours" 1 = 1 := numOrDefault_set_self (by norm_num)
    have h9 : numOrDefault args "time_range_hours" 1 = 1 := numOrDefault_none h
    unfold handleGetPodLogs
    rw [h1, h2, h3, h4, h5, h6, h7, h8, h9]
  · intro args now env h
    have h1 : reqString (setArg args "max_results" (Value.num 100))
        "project_id" = reqString args "project_id" :=
      reqString_congr (lookup_set_ne (by decide))
    have h2 : reqString (setArg args "max_results" (Value.num 100))
        "location" = reqString args "location" :=
      reqString_congr (lookup_set_ne (by decide))
    have h3 : reqString (setArg args "max_results" (Value.num 100))
        "cluster_name" = reqString args "cluster_name" :=
      reqString_congr (lookup_set_ne (by decide))
    have h4 : reqString (setArg args "max_results" (Value.num 100))
        "namespace" = reqString args "namespace" :=
      reqString_congr (lookup_set_ne (by decide))
    have h5 : reqString (setArg args "max_results" (Value.num 100))
        "pod_name" = reqString args "pod_name" :=
      reqString_congr (lookup_set_ne (by decide))
    have h6 : optString (setArg args "max_results" (Value.num 100))
        "container_name" = optString args "container_name" :=
      optString_congr (lookup_set_ne (by decide))
    have h7 : numOrDefault (setArg args "max_results" (Value.num 100))
        "time_range_hours" 1 = numOrDefault args "time_range_hours" 1 :=
      numOrDefault_congr (lookup_set_ne (by decide))
    have h8 : numOrDefault (setArg args "max_results" (Value.num 100))
        "max_results" 100 = 100 := numOrDefault_set_self (by norm_num)
    have h9 : numOrDefault args "max_results" 100 = 100 := numOrDefault_none h
    unfold handleGetPodLogs
    rw [h1, h2, h3, h4, h5, h6, h7, h8, h9]
  · intro args h
    have h1 : reqString (setArg args "max_results" (Value.num 5))
        "query" = reqString args "query" :=
      reqString_congr (lookup_set_ne (by decide))
    have h2 : numOrDefault (setArg args "max_results" (Value.num 5))
        "max_results" 5 = 5 := numOrDefault_set_self (by norm_num)
    have h3 : numOrDefault args "max_results" 5 = 5 := numOrDefault_none h
    unfold handleSearchGCPDocs
    rw [h1, h2, h3]
  · intro args h
    have h1 : reqString (setArg args "max_results" (Value.num 5))
        "query" = reqString args "query" :=
      reqString_congr (lookup_set_ne (by decide))
    have h2 : numOrDefault (setArg args "max_results" (Value.num 5))
        "max_results" 5 = 5 := numOrDefault_set_self (by norm_num)
    have h3 : numOrDefault args "max_results" 5 = 5 := numOrDefault_none h
    unfold handleSearchK8sDocs
    rw [h1, h2, h3]

/-- C7 witness: a `query_logs` call without `time_range_hours` behaves
exactly as the same call with `time_range_hours = 1`. -/
theorem claim_C7_witness :
    handleQueryLogs [("project_id", .str "p"), ("filter", .str "f")] 0
        envEmptyLogs =
      handleQueryLogs
        (setArg [("project_id", .str "p"), ("filter", .str "f")]
          "time_range_hours" (.num 1)) 0 envEmptyLogs :=
  claim_C7_optional_defaults.1 _ 0 envEmptyLogs (by rfl)

/-- C10: a supplied optional numeric argument that is not a float64 (a
string or boolean) or that is not strictly positive is silently replaced
by the declared default — the call proceeds exactly as if the parameter
were absent, with no validation error — for every optional numeric
parameter of every tool (`query_logs`, `get_pod_logs`, `query_metrics`,
the documentation searches, and `list_active_issues`). -/
theorem claim_C10_bad_numeric_defaults :
    (∀ (args : Args) (now : Int) (env : TimedHttpEnv LogsRequest LogsResponse)
      (v : Value), lookupArg args "time_range_hours" = none → badNumV v = true →
      handleQueryLogs (setArg args "time_range_hours" v) now env =
        handleQueryLogs args now env) ∧
    (∀ (args : Args) (now : Int) (env : TimedHttpEnv LogsRequest LogsResponse)
      (v : Value), lookupArg args "max_results" = none → badNumV v = true →
      handleQueryLogs (setArg args "max_results" v) now env =
        handleQueryLogs args now env) ∧
    (∀ (args : Args) (now : Int) (env : TimedHttpEnv LogsRequest PodLogsResponse)
      (v : Value), lookupArg args "time_range_hours" = none → badNumV v = true →
      handleGetPodLogs (setArg args "time_range_hours" v) now env =
        handleGetPodLogs args now env) ∧
    (∀ (args : Args) (now : Int) (env : TimedHttpEnv LogsRequest PodLogsResponse)
      (v : Value), lookupArg args "max_results" = none → badNumV v = true →
      handleGetPodLogs (setArg args "max_results" v) now env =
        handleGetPodLogs args now env) ∧
    (∀ (args : Args) (now : Int) (env : TimedHttpEnv MetricsRequest MetricsResponse)
      (v : Value), lookupArg args "time_range_hours" = none → badNumV v = true →
      handleQueryMetrics (setArg args "time_range_hours" v) now env =
        handleQueryMetrics args now env) ∧
    (∀ (args : Args) (now : Int) (env : TimedHttpEnv MetricsRequest MetricsResponse)
      (v : Value), lookupArg args "alignment_period_seconds" = none →
      badNumV v = true →
      handleQueryMetrics (setArg args "alignment_period_seconds" v) now env =
        handleQueryMetrics args now env) ∧
    (∀ (args : Args) (v : Value), lookupArg args "max_results" = none →
      badNumV v = true →
      handleSearchGCPDocs (setArg args "max_results" v) = handleSearchGCPDocs args) ∧
    (∀ (args : Args) (v : Value), lookupArg args "max_results" = none →
      badNumV v = true →
      handleSearchK8sDocs (setArg args "max_results" v) = handleSearchK8sDocs args) ∧
    (∀ (args : Args) (env : GroupStatsEnv) (v : Value),
      lookupArg args "max_results" = none → badNumV v = true →
      handleListActiveIssues (setArg args "max_results" v) env =
        handleListActiveIssues args env) := by
  refine ⟨?_, ?_, ?_, ?_, ?_, ?_, ?_, ?_, ?_⟩
  · intro args now env v h hb
    have h1 : reqString (setArg args "time_range_hours" v) "project_id" =
        reqString args "project_id" := reqString_congr (lookup_set_ne (by decide))
    have h2 : reqString (setArg args "time_range_hours" v) "filter" =
        reqString args "filter" := reqString_congr (lookup_set_ne (by decide))
    have h3 : numOrDefault (setArg args "time_range_hours" v) "max_results" 50 =
        numOrDefault args "max_results" 50 :=
      numOrDefault_congr (lookup_set_ne (by decide))
    have h4 : numOrDefault (setArg args "time_range_hours" v)
        "time_range_hours" 1 = 1 := numOrDefault_set_bad hb
    have h5 : numOrDefault args "time_range_hours" 1 = 1 := numOrDefault_none h
    unfold handleQueryLogs
    rw [h1, h2, h3, h4, h5]
  · intro args now env v h hb
    have h1 : reqString (setArg args "max_results" v) "project_id" =
        reqString args "project_id" := reqString_congr (lookup_set_ne (by decide))
    have h2 : reqString (setArg args "max_results" v) "filter" =
        reqString args "filter" := reqString_congr (lookup_set_ne (by decide))
    have h3 : numOrDefault (setArg args "max_results" v) "time_range_hours" 1 =
        numOrDefault args "time_range_hours" 1 :=
      numOrDefault_congr (lookup_set_ne (by decide))
    have h4 : numOrDefault (setArg args "max_results" v) "max_results" 50 = 50 :=
      numOrDefault_set_bad hb
    have h5 : numOrDefault args "max_results" 50 = 50 := numOrDefault_none h
    unfold handleQueryLogs
    rw [h1, h2, h3, h4, h5]
  · intro args now env v h hb
    have h1 : reqString (setArg args "time_range_hours" v) "project_id" =
        reqString args "project_id" := reqString_congr (lookup_set_ne (by decide))
    have h2 : reqString (setArg args "time_range_hours" v) "location" =
        reqString args "location" := reqString_congr (lookup_set_ne (by decide))
    have h3 : reqString (setArg args "time_range_hours" v) "cluster_name" =
        reqString args "cluster_name" := reqString_congr (lookup_set_ne (by decide))
    have h4 : reqString (setArg args "time_range_hours" v) "namespace" =
        reqString args "namespace" := reqString_congr (lookup_set_ne (by decide))
    have h5 : reqString (setArg args "time_range_hours" v) "pod_name" =
        reqString args "pod_name" := reqString_congr (lookup_set_ne (by decide))
    have h6 : optString (setArg args "time_range_hours" v) "container_name" =
        optString args "container_name" := optString_congr (lookup_set_ne (by decide))
    have h7 : numOrDefault (setArg args "time_range_hours" v) "max_results" 100 =
        numOrDefault args "max_results" 100 :=
      numOrDefault_congr (lookup_set_ne (by decide))
    have h8 : numOrDefault (setArg args "time_range_hours" v)
        "time_range_hours" 1 = 1 := numOrDefault_set_bad hb
    have h9 : numOrDefault args "time_range_hours" 1 = 1 := numOrDefault_none h
    unfold handleGetPodLogs
    rw [h1, h2, h3, h4, h5, h6, h7, h8, h9]
  · intro args now env v h hb
    have h1 : reqString (setArg args "max_results" v) "project_id" =
        reqString args "project_id" := reqString_congr (lookup_set_ne (by decide))
    have h2 : reqString (setArg args "max_results" v) "location" =
        reqString args "location" := reqString_congr (lookup_set_ne (by decide))
    have h3 : reqString (setArg args "max_results" v) "cluster_name" =
        reqString args "cluster_name" := reqString_congr (lookup_set_ne (by decide))
    have h4 : reqString (setArg args "max_results" v) "namespace" =
        reqString args "namespace" := reqString_congr (lookup_set_ne (by decide))
    have h5 : reqString (setArg args "max_results" v) "pod_name" =
        reqString args "pod_name" := reqString_congr (lookup_set_ne (by decide))
    have h6 : optString (setArg args "max_results" v) "container_name" =
        optString args "container_name" := optString_congr (lookup_set_ne (by decide))
    have h7 : numOrDefault (setArg args "max_results" v) "time_range_hours" 1 =
        numOrDefault args "time_range_hours" 1 :=
      numOrDefault_congr (lookup_set_ne (by decide))
    have h8 : numOrDefault (setArg args "max_results" v) "max_results" 100 = 100 :=
      numOrDefault_set_bad hb
    have h9 : numOrDefault args "max_results" 100 = 100 := numOrDefault_none h
    unfold handleGetPodLogs
    rw [h1, h2, h3, h4, h5, h6, h7, h8, h9]
  · intro args now env v h hb
    have h1 : reqString (setArg args "time_range_hours" v) "project_id" =
        reqString args "project_id" := reqString_congr (lookup_set_ne (by decide))
    have h2 : reqString (setArg args "time_range_hours" v) "metric_type" =
        reqString args "metric_type" := reqString_congr (lookup_set_ne (by decide))
    have h3 : optString (setArg args "time_range_hours" v) "filter" =
        optString args "filter" := optString_congr (lookup_set_ne (by decide))
    have h4 : numOrDefault (setArg args "time_range_hours" v)
        "alignment_period_seconds" 300 =
        numOrDefault args "alignment_period_seconds" 300 :=
      numOrDefault_congr (lookup_set_ne (by decide))
    have h5 : numOrDefault (setArg args "time_range_hours" v)
        "time_range_hours" 1 = 1 := numOrDefault_set_bad hb
    have h6 : numOrDefault args "time_range_hours" 1 = 1 := numOrDefault_none h
    unfold handleQueryMetrics
    rw [h1, h2, h3, h4, h5, h6]
  · intro args now env v h hb
    have h1 : reqString (setArg args "alignment_period_seconds" v) "project_id" =
        reqString args "project_id" := reqString_congr (lookup_set_ne (by decide))
    have h2 : reqString (setArg args "alignment_period_seconds" v) "metric_type" =
        reqString args "metric_type" := reqString_congr (lookup_set_ne (by decide))
    have h3 : optString (setArg args "alignment_period_seconds" v) "filter" =
        optString args "filter" := optString_congr (lookup_set_ne (by decide))
    have h4 : numOrDefault (setArg args "alignment_period_seconds" v)
        "time_range_hours" 1 = numOrDefault args "time_range_hours" 1 :=
      numOrDefault_congr (lookup_set_ne (by decide))
    have h5 : numOrDefault (setArg args "alignment_period_seconds" v)
        "alignment_period_seconds" 300 = 300 := numOrDefault_set_bad hb
    have h6 : numOrDefault args "alignment_period_seconds" 300 = 300 :=
      numOrDefault_none h
    unfold handleQueryMetrics
    rw [h1, h2, h3, h4, h5, h6]
  · intro args v h hb
    have h1 : reqString (setArg args "max_results" v) "query" =
        reqString args "query" := reqString_congr (lookup_set_ne (by decide))
    have h2 : numOrDefault (setArg args "max_results" v) "max_results" 5 = 5 :=
      numOrDefault_set_bad hb
    have h3 : numOrDefault args "max_results" 5 = 5 := numOrDefault_none h
    unfold handleSearchGCPDocs
    rw [h1, h2, h3]
  · intro args v h hb
    have h1 : reqString (setArg args "max_results" v) "query" =
        reqString args "query" := reqString_congr (lookup_set_ne (by decide))
    have h2 : numOrDefault (setArg args "max_results" v) "max_results" 5 = 5 :=
      numOrDefault_set_bad hb
    have h3 : numOrDefault args "max_results" 5 = 5 := numOrDefault_none h
    unfold handleSearchK8sDocs
    rw [h1, h2, h3]
  · intro args env v h hb
    have h1 : reqString (setArg args "max_results" v) "project_id" =
        reqString args "project_id" := reqString_congr (lookup_set_ne (by decide))
    have h2 : listActiveIssuesMaxResults (setArg args "max_results" v) = 10 :=
      lamr_set_bad hb
    have h3 : listActiveIssuesMaxResults args = 10 := lamr_none h
    unfold handleListActiveIssues
    rw [h1, h2, h3]

/-- C10 witness: supplying `time_range_hours` as a string to
`query_metrics` behaves exactly as omitting it. -/
theorem claim_C10_witness :
    handleQueryMetrics
        (setArg [("project_id", .str "p"), ("metric_type", .str "m")]
          "time_range_hours" (.str "soon")) 0 envEmptyMetrics =
      handleQueryMetrics [("project_id", .str "p"), ("metric_type", .str "m")]
        0 envEmptyMetrics :=
  claim_C10_bad_numeric_defaults.2.2.2.2.1 _ 0 envEmptyMetrics _ (by rfl) (by rfl)

/-- C2: for every tool and every required string parameter, an argument
map in which that key is absent, bound to a non-string, or bound to the
empty string (with every earlier required parameter valid) makes the
handler return an `isError` result naming exactly that parameter, for
every collaborator environment — so no network call can influence the
outcome and only the first violated constraint (in source order) is
reported.  In particular `query_logs` with `project_id = "p"` and
`filter = ""` yields the `filter` validation error for every environment,
and with both violated only `project_id` is reported. -/
theorem claim_C2_required_validation :
    (∀ (args : Args) (env : HttpEnv String ClustersResponse),
      strOkB (lookupArg args "project_id") = false →
      handleListClusters args env =
        (toolErr "project_id must be a non-empty string", none)) ∧
    (∀ (args : Args) (env : HttpEnv String ClusterDetail),
      strOkB (lookupArg args "project_id") = false →
      handleGetClusterInfo args env =
        (toolErr "project_id must be a non-empty string", none)) ∧
    (∀ (args : Args) (env : HttpEnv String ClusterDetail),
      strOkB (lookupArg args "project_id") = true →
      strOkB (lookupArg args "location") = false →
      handleGetClusterInfo args env =
        (toolErr "location must be a non-empty string", none)) ∧
    (∀ (args : Args) (env : HttpEnv String ClusterDetail),
      strOkB (lookupArg args "project_id") = true →
      strOkB (lookupArg args "location") = true →
      strOkB (lookupArg args "cluster_name") = false →
      handleGetClusterInfo args env =
        (toolErr "cluster_name must be a non-empty string", none)) ∧
    (∀ (args : Args) (env : HttpEnv String NodePoolsResponse),
      strOkB (lookupArg args "project_id") = false →
      handleListNodePools args env =
        (toolErr "project_id must be a non-empty string", none)) ∧
    (∀ (args : Args) (env : HttpEnv String NodePoolsResponse),
      strOkB (lookupArg args "project_id") = true →
      strOkB (lookupArg args "location") = false →
      handleListNodePools args env =
        (toolErr "location must be a non-empty string", none)) ∧
    (∀ (args : Args) (env : HttpEnv String NodePoolsResponse),
      strOkB (lookupArg args "project_id") = true →
      strOkB (lookupArg args "location") = true →
      strOkB (lookupArg args "cluster_name") = false →
      handleListNodePools args env =
        (toolErr "cluster_name must be a non-empty string", none)) ∧
    (∀ (args : Args) (now : Int)
      (env : TimedHttpEnv MetricsRequest MetricsResponse),
      strOkB (lookupArg args "project_id") = false →
      handleQueryMetrics args now env =
        (toolErr "project_id must be a non-empty string", none)) ∧
    (∀ (args : Args) (now : Int)
      (env : TimedHttpEnv MetricsRequest MetricsResponse),
      strOkB (lookupArg args "project_id") = true →
      strOkB (lookupArg args "metric_type") = false →
      handleQueryMetrics args now env =
        (toolErr "metric_type must be a non-empty string", none)) ∧
    (∀ (args : Args) (env : AlertsEnv),
      strOkB (lookupArg args "project_id") = false →
      handleListAlerts args env =
        (toolErr "project_id must be a non-empty string", none)) ∧
    (∀ (args : Args) (now : Int) (env : TimedHttpEnv LogsRequest LogsResponse),
      strOkB (lookupArg args "project_id") = false →
      handleQueryLogs args now env =
        (toolErr "project_id must be a non-empty string", none)) ∧
    (∀ (args : Args) (now : Int) (env : TimedHttpEnv LogsRequest LogsResponse),
      strOkB (lookupArg args "project_id") = true →
      strOkB (lookupArg args "filter") = false →
      handleQueryLogs args now env =
        (toolErr "filter must be a non-empty string", none)) ∧
    (∀ (args : Args) (now : Int)
      (env : TimedHttpEnv LogsRequest PodLogsResponse),
      strOkB (lookupArg args "project_id") = false →
      handleGetPodLogs args now env =
        (toolErr "project_id must be a non-empty string", none)) ∧
    (∀ (args : Args) (now : Int)
      (env : TimedHttpEnv LogsRequest PodLogsResponse),
      strOkB (lookupArg args "project_id") = true →
      strOkB (lookupArg args "location") = false →
      handleGetPodLogs args now env =
        (toolErr "location must be a non-empty string", none)) ∧
    (∀ (args : Args) (now : Int)
      (env : TimedHttpEnv LogsRequest PodLogsResponse),
      strOkB (lookupArg args "project_id") = true →
      strOkB (lookupArg args "location") = true →
      strOkB (lookupArg args "cluster_name") = false →
      handleGetPodLogs args now env =
        (toolErr "cluster_name must be a non-empty string", none)) ∧
    (∀ (args : Args) (now : Int)
      (env : TimedHttpEnv LogsRequest PodLogsResponse),
      strOkB (lookupArg args "project_id") = true →
      strOkB (lookupArg args "location") = true →
      strOkB (lookupArg args "cluster_name") = true →
      strOkB (lookupArg args "namespace") = false →
      handleGetPodLogs args now env =
        (toolErr "namespace must be a non-empty string", none)) ∧
    (∀ (args : Args) (now : Int)
      (env : TimedHttpEnv LogsRequest PodLogsResponse),
      strOkB (lookupArg args "project_id") = true →
      strOkB (lookupArg args "location") = true →
      strOkB (lookupArg args "cluster_name") = true →
      strOkB (lookupArg args "namespace") = true →
      strOkB (lookupArg args "pod_name") = false →
      handleGetPodLogs args now env =
        (toolErr "pod_name must be a non-empty string", none)) ∧
    (∀ (args : Args) (env : GroupStatsEnv),
      strOkB (lookupArg args "project_id") = false →
      handleListActiveIssues args env =
        (toolErr "project_id must be a non-empty string", none)) ∧
    (∀ (args : Args) (env : EventsEnv),
      strOkB (lookupArg args "project_id") = false →
      handleGetIssueDetails args env =
        (toolErr "project_id must be a non-empty string", none)) ∧
    (∀ (args : Args) (env : EventsEnv),
      strOkB (lookupArg args "project_id") = true →
      strOkB (lookupArg args "error_group_id") = false →
      handleGetIssueDetails args env =
        (toolErr "error_group_id must be a non-empty string", none)) ∧
    (∀ args : Args, strOkB (lookupArg args "query") = false →
      handleSearchGCPDocs args =
        (toolErr "query must be a non-empty string", none)) ∧
    (∀ args : Args, strOkB (lookupArg args "query") = false →
      handleSearchK8sDocs args =
        (toolErr "query must be a non-empty string", none)) ∧
    (∀ (now : Int) (env : TimedHttpEnv LogsRequest LogsResponse),
      handleQueryLogs [("project_id", .str "p"), ("filter", .str "")] now env =
        (toolErr "filter must be a non-empty string", none)) ∧
    (∀ (now : Int) (env : TimedHttpEnv LogsRequest LogsResponse),
      handleQueryLogs [] now env =
        (toolErr "project_id must be a non-empty string", none)) := by
  refine ⟨?_, ?_, ?_, ?_, ?_, ?_, ?_, ?_, ?_, ?_, ?_, ?_, ?_, ?_, ?_, ?_, ?_,
    ?_, ?_, ?_, ?_, ?_, ?_, ?_⟩
  · intro args env h
    unfold handleListClusters
    rw [reqString_err h]
    rfl
  · intro args env h
    unfold handleGetClusterInfo
    rw [reqString_err h]
    rfl
  · intro args env h1 h2
    unfold handleGetClusterInfo
    rw [reqString_ok h1, reqString_err h2]
    rfl
  · intro args env h1 h2 h3
    unfold handleGetClusterInfo
    rw [reqString_ok h1, reqString_ok h2, reqString_err h3]
    rfl
  · intro args env h
    unfold handleListNodePools
    rw [reqString_err h]
    rfl
  · intro args env h1 h2
    unfold handleListNodePools
    rw [reqString_ok h1, reqString_err h2]
    rfl
  · intro args env h1 h2 h3
    unfold handleListNodePools
    rw [reqString_ok h1, reqString_ok h2, reqString_err h3]
    rfl
  · intro args now env h
    unfold handleQueryMetrics
    rw [reqString_err h]
    rfl
  · intro args now env h1 h2
    unfold handleQueryMetrics
    rw [reqString_ok h1, reqString_err h2]
    rfl
  · intro args env h
    unfold handleListAlerts
    rw [reqString_err h]
    rfl
  · intro args now env h
    unfold handleQueryLogs
    rw [reqString_err h]
    rfl
  · intro args now env h1 h2
    unfold handleQueryLogs
    rw [reqString_ok h1, reqString_err h2]
    rfl
  · intro args now env h
    unfold handleGetPodLogs
    rw [reqString_err h]
    rfl
  · intro args now env h1 h2
    unfold handleGetPodLogs
    rw [reqString_ok h1, reqString_err h2]
    rfl
  · intro args now env h1 h2 h3
    unfold handleGetPodLogs
    rw [reqString_ok h1, reqString_ok h2, reqString_err h3]
    rfl
  · intro args now env h1 h2 h3 h4
    unfold handleGetPodLogs
    rw [reqString_ok h1, reqString_ok h2, reqString_ok h3, reqString_err h4]
    rfl
  · intro args now env h1 h2 h3 h4 h5
    unfold handleGetPodLogs
    rw [reqString_ok h1, reqString_ok h2, reqString_ok h3, reqString_ok h4,
      reqString_err h5]
    rfl
  · intro args env h
    unfold handleListActiveIssues
    rw [reqString_err h]
    rfl
  · intro args env h
    unfold handleGetIssueDetails
    rw [reqString_err h]
    rfl
  · intro args env h1 h2
    unfold handleGetIssueDetails
    rw [reqString_ok h1, reqString_err h2]
    rfl
  · intro args h
    unfold handleSearchGCPDocs
    rw [reqString_err h]
    rfl
  · intro args h
    unfold handleSearchK8sDocs
    rw [reqString_err h]
    rfl
  · intro now env
    rfl
  · intro now env
    rfl

/-- C2 witness: `query_logs` with `filter = ""` against a concrete stub
environment reports the `filter` validation error. -/
theorem claim_C2_witness :
    handleQueryLogs [("project_id", .str "p"), ("filter", .str "")] 0
        envEmptyLogs =
      (toolErr "filter must be a non-empty string", none) :=
  claim_C2_required_validation.2.2.2.2.2.2.2.2.2.2.2.1 _ 0 envEmptyLogs
    (by rfl) (by rfl)

/-- C1: no error escapes the call boundary.  (a) Every handler returns a
`nil` Go error for every argument map and every collaborator environment.
(b) When a collaborator fails — the authenticated transport cannot
produce a client, the remote API answers non-2xx, or the payload is
undecodable — the handler result has `isError = true`.  (c) When the
remote API answers with a non-OK status while everything earlier
succeeded, the result is exactly the error message carrying the remote
status text.  In particular `get_cluster_info` on
`{project_id: "p", location: "us-central1", cluster_name: "c"}` against a
stub returning HTTP 404 yields `isError = true` with "404 Not Found" in
the message. -/
theorem claim_C1_errors_become_results :
    (∀ (args : Args) (env : HttpEnv String ClustersResponse),
      (handleListClusters args env).2 = none) ∧
    (∀ (args : Args) (env : HttpEnv String ClusterDetail),
      (handleGetClusterInfo args env).2 = none) ∧
    (∀ (args : Args) (env : HttpEnv String NodePoolsResponse),
      (handleListNodePools args env).2 = none) ∧
    (∀ args : Args, (handleSearchGCPDocs args).2 = none) ∧
    (∀ args : Args, (handleSearchK8sDocs args).2 = none) ∧
    (∀ args : Args, (handleGetErrorDocs args).2 = none) ∧
    (∀ (args : Args) (now : Int)
      (env : TimedHttpEnv MetricsRequest MetricsResponse),
      (handleQueryMetrics args now env).2 = none) ∧
    (∀ (args : Args) (env : AlertsEnv), (handleListAlerts args env).2 = none) ∧
    (∀ (args : Args) (now : Int) (env : TimedHttpEnv LogsRequest LogsResponse),
      (handleQueryLogs args now env).2 = none) ∧
    (∀ (args : Args) (now : Int)
      (env : TimedHttpEnv LogsRequest PodLogsResponse),
      (handleGetPodLogs args now env).2 = none) ∧
    (∀ (args : Args) (env : GroupStatsEnv),
      (handleListActiveIssues args env).2 = none) ∧
    (∀ (args : Args) (env : EventsEnv),
      (handleGetIssueDetails args env).2 = none) ∧
    (∀ (args : Args) (env : HttpEnv String ClustersResponse),
      env1Fails env → (handleListClusters args env).1.isError = true) ∧
    (∀ (args : Args) (env : HttpEnv String ClusterDetail),
      env1Fails env → (handleGetClusterInfo args env).1.isError = true) ∧
    (∀ (args : Args) (env : HttpEnv String NodePoolsResponse),
      env1Fails env → (handleListNodePools args env).1.isError = true) ∧
    (∀ (args : Args) (now : Int)
      (env : TimedHttpEnv MetricsRequest MetricsResponse),
      timedEnvFails env → (handleQueryMetrics args now env).1.isError = true) ∧
    (∀ (args : Args) (env : AlertsEnv),
      alertsEnvFails env → (handleListAlerts args env).1.isError = true) ∧
    (∀ (args : Args) (now : Int) (env : TimedHttpEnv LogsRequest LogsResponse),
      timedEnvFails env → (handleQueryLogs args now env).1.isError = true) ∧
    (∀ (args : Args) (now : Int)
      (env : TimedHttpEnv LogsRequest PodLogsResponse),
      timedEnvFails env → (handleGetPodLogs args now env).1.isError = true) ∧
    (∀ (args : Args) (env : GroupStatsEnv),
      groupStatsEnvFails env →
      (handleListActiveIssues args env).1.isError = true) ∧
    (∀ (args : Args) (env : EventsEnv),
      eventsEnvFails env → (handleGetIssueDetails args env).1.isError = true) ∧
    (∀ (args : Args) (env : HttpEnv String ClustersResponse) (code : Nat)
      (st : String) (dec : Except String ClustersResponse),
      strOkB (lookupArg args "project_id") = true →
      env.client = .ok () → code ≠ 200 →
      (∀ u, env.http u = .resp code st dec) →
      (handleListClusters args env).1 =
        toolErr ("Error from Container API: " ++ st)) ∧
    (∀ (args : Args) (env : HttpEnv String ClusterDetail) (code : Nat)
      (st : String) (dec : Except String ClusterDetail),
      strOkB (lookupArg args "project_id") = true →
      strOkB (lookupArg args "location") = true →
      strOkB (lookupArg args "cluster_name") = true →
      env.client = .ok () → code ≠ 200 →
      (∀ u, env.http u = .resp code st dec) →
      (handleGetClusterInfo args env).1 =
        toolErr ("Error from Container API: " ++ st)) ∧
    (∀ (args : Args) (env : HttpEnv String NodePoolsResponse) (code : Nat)
      (st : String) (dec : Except String NodePoolsResponse),
      strOkB (lookupArg args "project_id") = true →
      strOkB (lookupArg args "location") = true →
      strOkB (lookupArg args "cluster_name") = true →
      env.client = .ok () → code ≠ 200 →
      (∀ u, env.http u = .resp code st dec) →
      (handleListNodePools args env).1 =
        toolErr ("Error from Container API: " ++ st)) ∧
    (∀ (args : Args) (now : Int)
      (env : TimedHttpEnv MetricsRequest MetricsResponse) (code : Nat)
      (st : String) (dec : Except String MetricsResponse),
      strOkB (lookupArg args "project_id") = true →
      strOkB (lookupArg args "metric_type") = true →
      env.client = .ok () → code ≠ 200 →
      (∀ r, env.http r = .resp code st dec) →
      (handleQueryMetrics args now env).1 =
        toolErr ("Error from Monitoring API: " ++ st)) ∧
    (∀ (args : Args) (now : Int) (env : TimedHttpEnv LogsRequest LogsResponse)
      (code : Nat) (st : String) (dec : Except String LogsResponse),
      strOkB (lookupArg args "project_id") = true →
      strOkB (lookupArg args "filter") = true →
      env.client = .ok () → code ≠ 200 →
      (∀ r, env.http r = .resp code st dec) →
      (handleQueryLogs args now env).1 =
        toolErr ("Error from Logging API: " ++ st)) ∧
    (∀ (args : Args) (now : Int)
      (env : TimedHttpEnv LogsRequest PodLogsResponse) (code : Nat)
      (st : String) (dec : Except String PodLogsResponse),
      strOkB (lookupArg args "project_id") = true →
      strOkB (lookupArg args "location") = true →
      strOkB (lookupArg args "cluster_name") = true →
      strOkB (lookupArg args "namespace") = true →
      strOkB (lookupArg args "pod_name") = true →
      env.client = .ok () → code ≠ 200 →
      (∀ r, env.http r = .resp code st dec) →
      (handleGetPodLogs args now env).1 =
        toolErr ("Error from Logging API: " ++ st)) ∧
    (∀ (args : Args) (env : AlertsEnv) (code : Nat) (st : String)
      (dec : Except String PoliciesResponse),
      strOkB (lookupArg args "project_id") = true →
      env.client = .ok () → code ≠ 200 →
      (∀ u, env.httpPolicies u = .resp code st dec) →
      (handleListAlerts args env).1 =
        toolErr ("Error from Monitoring API: " ++ st)) ∧
    (∀ (args : Args) (env : AlertsEnv) (stP : String)
      (pols : PoliciesResponse) (code : Nat) (st : String)
      (dec : Except String IncidentsResponse),
      strOkB (lookupArg args "project_id") = true →
      env.client = .ok () →
      (∀ u, env.httpPolicies u = .resp 200 stP (.ok pols)) →
      code ≠ 200 →
      (∀ u, env.httpIncidents u = .resp code st dec) →
      (handleListAlerts args env).1 =
        toolErr ("Error from Monitoring API for incidents: " ++ st)) ∧
    (handleGetClusterInfo scenarioClusterArgs env404Cluster =
        (toolErr "Error from Container API: 404 Not Found", none) ∧
      hasSub (handleGetClusterInfo scenarioClusterArgs env404Cluster).1.content
        "404 Not Found" = true) := by
  refine ⟨?_, ?_, ?_, ?_, ?_, ?_, ?_, ?_, ?_, ?_, ?_, ?_, ?_, ?_, ?_, ?_, ?_,
    ?_, ?_, ?_, ?_, ?_, ?_, ?_, ?_, ?_, ?_, ?_, ?_, ?_⟩
  · intro args env
    unfold handleListClusters
    repeat' split
    all_goals rfl
  · intro args env
    unfold handleGetClusterInfo
    repeat' split
    all_goals rfl
  · intro args env
    unfold handleListNodePools
    repeat' split
    all_goals rfl
  · intro args
    unfold handleSearchGCPDocs
    dsimp only
    repeat' split
    all_goals rfl
  · intro args
    unfold handleSearchK8sDocs
    dsimp only
    repeat' split
    all_goals rfl
  · intro args
    unfold handleGetErrorDocs
    dsimp only
    repeat' split
    all_goals rfl
  · intro args now env
    unfold handleQueryMetrics
    repeat' split
    all_goals rfl
  · intro args env
    unfold handleListAlerts
    repeat' split
    all_goals rfl
  · intro args now env
    unfold handleQueryLogs
    repeat' split
    all_goals rfl
  · intro args now env
    unfold handleGetPodLogs
    repeat' split
    all_goals rfl
  · intro args env
    unfold handleListActiveIssues
    dsimp only
    repeat' split
    all_goals rfl
  · intro args env
    unfold handleGetIssueDetails
    dsimp only
    repeat' split
    all_goals rfl
  · intro args env hfail
    unfold handleListClusters
    cases hv : strOkB (lookupArg args "project_id") with
    | false => rw [reqString_err hv]; rfl
    | true =>
        rw [reqString_ok hv]
        rcases hfail with hc | hh
        · cases hcl : env.client with
          | error e => rfl
          | ok u => rw [hcl] at hc; exact absurd hc (by simp [exceptBad])
        · cases hcl : env.client with
          | error e => rfl
          | ok u => exact httpTail_isError (hh _)
  · intro args env hfail
    unfold handleGetClusterInfo
    cases hv1 : strOkB (lookupArg args "project_id") with
    | false => rw [reqString_err hv1]; rfl
    | true =>
    cases hv2 : strOkB (lookupArg args "location") with
    | false => rw [reqString_ok hv1, reqString_err hv2]; rfl
    | true =>
    cases hv3 : strOkB (lookupArg args "cluster_name") with
    | false => rw [reqString_ok hv1, reqString_ok hv2, reqString_err hv3]; rfl
    | true =>
        rw [reqString_ok hv1, reqString_ok hv2, reqString_ok hv3]
        rcases hfail with hc | hh
        · cases hcl : env.client with
          | error e => rfl
          | ok u => rw [hcl] at hc; exact absurd hc (by simp [exceptBad])
        · cases hcl : env.client with
          | error e => rfl
          | ok u => exact httpTail_isError (hh _)
  · intro args env hfail
    unfold handleListNodePools
    cases hv1 : strOkB (lookupArg args "project_id") with
    | false => rw [reqString_err hv1]; rfl
    | true =>
    cases hv2 : strOkB (lookupArg args "location") with
    | false => rw [reqString_ok hv1, reqString_err hv2]; rfl
    | true =>
    cases hv3 : strOkB (lookupArg args "cluster_name") with
    | false => rw [reqString_ok hv1, reqString_ok hv2, reqString_err hv3]; rfl
    | true =>
        rw [reqString_ok hv1, reqString_ok hv2, reqString_ok hv3]
        rcases hfail with hc | hh
        · cases hcl : env.client with
          | error e => rfl
          | ok u => rw [hcl] at hc; exact absurd hc (by simp [exceptBad])
        · cases hcl : env.client with
          | error e => rfl
          | ok u => exact httpTail_isError (hh _)
  · intro args now env hfail
    unfold handleQueryMetrics
    cases hv1 : strOkB (lookupArg args "project_id") with
    | false => rw [reqString_err hv1]; rfl
    | true =>
    cases hv2 : strOkB (lookupArg args "metric_type") with
    | false => rw [reqString_ok hv1, reqString_err hv2]; rfl
    | true =>
        rw [reqString_ok hv1, reqString_ok hv2]
        rcases hfail with hc | hh
        · cases hcl : env.client with
          | error e => rfl
          | ok u => rw [hcl] at hc; exact absurd hc (by simp [exceptBad])
        · cases hcl : env.client with
          | error e => rfl
          | ok u => exact httpTail_isError (hh _)
  · intro args env hfail
    unfold handleListAlerts
    cases hv : strOkB (lookupArg args "project_id") with
    | false => rw [reqString_err hv]; rfl
    | true =>
        rw [reqString_ok hv]
        rcases hfail with hc | hp | hi
        · cases hcl : env.client with
          | error e => rfl
          | ok u => rw [hcl] at hc; exact absurd hc (by simp [exceptBad])
        · cases hcl : env.client with
          | error e => rfl
          | ok u => exact httpTail_isError (hp _)
        · cases hcl : env.client with
          | error e => rfl
          | ok u =>
              exact httpTail_isError_cont (fun pols => httpTail_isError (hi _))
  · intro args now env hfail
    unfold handleQueryLogs
    cases hv1 : strOkB (lookupArg args "project_id") with
    | false => rw [reqString_err hv1]; rfl
    | true =>
    cases hv2 : strOkB (lookupArg args "filter") with
    | false => rw [reqString_ok hv1, reqString_err hv2]; rfl
    | true =>
        rw [reqString_ok hv1, reqString_ok hv2]
        rcases hfail with hc | hh
        · cases hcl : env.client with
          | error e => rfl
          | ok u => rw [hcl] at hc; exact absurd hc (by simp [exceptBad])
        · cases hcl : env.client with
          | error e => rfl
          | ok u => exact httpTail_isError (hh _)
  · intro args now env hfail
    unfold handleGetPodLogs
    cases hv1 : strOkB (lookupArg args "project_id") with
    | false => rw [reqString_err hv1]; rfl
    | true =>
    cases hv2 : strOkB (lookupArg args "location") with
    | false => rw [reqString_ok hv1, reqString_err hv2]; rfl
    | true =>
    cases hv3 : strOkB (lookupArg args "cluster_name") with
    | false => rw [reqString_ok hv1, reqString_ok hv2, reqString_err hv3]; rfl
    | true =>
    cases hv4 : strOkB (lookupArg args "namespace") with
    | false =>
        rw [reqString_ok hv1, reqString_ok hv2, reqString_ok hv3,
          reqString_err hv4]
        rfl
    | true =>
    cases hv5 : strOkB (lookupArg args "pod_name") with
    | false =>
        rw [reqString_ok hv1, reqString_ok hv2, reqString_ok hv3,
          reqString_ok hv4, reqString_err hv5]
        rfl
    | true =>
        rw [reqString_ok hv1, reqString_ok hv2, reqString_ok hv3,
          reqString_ok hv4, reqString_ok hv5]
        rcases hfail with hc | hh
        · cases hcl : env.client with
          | error e => rfl
          | ok u => rw [hcl] at hc; exact absurd hc (by simp [exceptBad])
        · cases hcl : env.client with
          | error e => rfl
          | ok u => exact httpTail_isError (hh _)
  · intro args env hfail
    unfold handleListActiveIssues
    cases hv : strOkB (lookupArg args "project_id") with
    | false => rw [reqString_err hv]; rfl
    | true =>
        rcases hfail with h | h | h
        · rw [reqString_ok hv]
          cases ho : env.opts with
          | error e => rfl
          | ok u => rw [ho] at h; exact absurd h (by simp [exceptBad])
        · rw [reqString_ok hv]
          cases ho : env.opts with
          | error e => rfl
          | ok u =>
              cases hn : env.newClient with
              | error e => rfl
              | ok u2 => rw [hn] at h; exact absurd h (by simp [exceptBad])
        · cases ho : env.opts with
          | error e => rw [reqString_ok hv]; rfl
          | ok u =>
              cases hn : env.newClient with
              | error e => rw [reqString_ok hv]; rfl
              | ok u2 =>
                  simp only [reqString_ok hv]
                  set REQ : ListGroupStatsRequest :=
                    { projectName := "projects/" ++ argStr args "project_id",
                      period := "PERIOD_1_DAY",
                      pageSize := listActiveIssuesMaxResults args,
                      alignment := "ALIGNMENT_EQUAL_ROUNDED" } with hREQ
                  cases hs : env.stats REQ with
                  | error e => simp [hs, toolErr]
                  | ok l =>
                      have h2 := h REQ
                      rw [hs] at h2
                      simp [exceptBad] at h2
  · intro args env hfail
    unfold handleGetIssueDetails
    cases hv1 : strOkB (lookupArg args "project_id") with
    | false => rw [reqString_err hv1]; rfl
    | true =>
    cases hv2 : strOkB (lookupArg args "error_group_id") with
    | false => rw [reqString_ok hv1, reqString_err hv2]; rfl
    | true =>
        rcases hfail with h | h | h
        · rw [reqString_ok hv1, reqString_ok hv2]
          cases ho : env.opts with
          | error e => rfl
          | ok u => rw [ho] at h; exact absurd h (by simp [exceptBad])
        · rw [reqString_ok hv1, reqString_ok hv2]
          cases ho : env.opts with
          | error e => rfl
          | ok u =>
              cases hn : env.newClient with
              | error e => rfl
              | ok u2 => rw [hn] at h; exact absurd h (by simp [exceptBad])
        · cases ho : env.opts with
          | error e => rw [reqString_ok hv1, reqString_ok hv2]; rfl
          | ok u =>
              cases hn : env.newClient with
              | error e => rw [reqString_ok hv1, reqString_ok hv2]; rfl
              | ok u2 =>
                  simp only [reqString_ok hv1, reqString_ok hv2]
                  set REQ : ListEventsRequest :=
                    { projectName := "projects/" ++ argStr args "project_id",
                      groupId := argStr args "error_group_id",
                      pageSize := 10 } with hREQ
                  cases hs : env.events REQ with
                  | error e => simp [hs, toolErr]
                  | ok l =>
                      have h2 := h REQ
                      rw [hs] at h2
                      simp [exceptBad] at h2
  · intro args env code st dec h1 hcl hcode hhttp
    unfold handleListClusters
    rw [reqString_ok h1, hcl]
    simp only [hhttp, httpTail_status hcode]
    rfl
  · intro args env code st dec h1 h2 h3 hcl hcode hhttp
    unfold handleGetClusterInfo
    rw [reqString_ok h1, reqString_ok h2, reqString_ok h3, hcl]
    simp only [hhttp, httpTail_status hcode]
    rfl
  · intro args env code st dec h1 h2 h3 hcl hcode hhttp
    unfold handleListNodePools
    rw [reqString_ok h1, reqString_ok h2, reqString_ok h3, hcl]
    simp only [hhttp, httpTail_status hcode]
    rfl
  · intro args now env code st dec h1 h2 hcl hcode hhttp
    unfold handleQueryMetrics
    rw [reqString_ok h1, reqString_ok h2, hcl]
    simp only [hhttp, httpTail_status hcode]
    rfl
  · intro args now env code st dec h1 h2 hcl hcode hhttp
    unfold handleQueryLogs
    rw [reqString_ok h1, reqString_ok h2, hcl]
    simp only [hhttp, httpTail_status hcode]
    rfl
  · intro args now env code st dec h1 h2 h3 h4 h5 hcl hcode hhttp
    unfold handleGetPodLogs
    rw [reqString_ok h1, reqString_ok h2, reqString_ok h3, reqString_ok h4,
      reqString_ok h5, hcl]
    simp only [hhttp, httpTail_status hcode]
    rfl
  · intro args env code st dec h1 hcl hcode hpol
    unfold handleListAlerts
    rw [reqString_ok h1, hcl]
    simp only [hpol, httpTail_status hcode]
    rfl
  · intro args env stP pols code st dec h1 hcl hpol hcode hinc
    unfold handleListAlerts
    rw [reqString_ok h1, hcl]
    simp only [hpol, hinc, httpTail_status hcode]
    rfl
  · exact ⟨by rfl, by rfl⟩

/-- C1 witness: the 404 `get_cluster_info` scenario, obtained by applying
the non-OK-status conjunct at the concrete arguments and stub. -/
theorem claim_C1_witness :
    (handleGetClusterInfo scenarioClusterArgs env404Cluster).1 =
      toolErr ("Error from Container API: " ++ "404 Not Found") :=
  claim_C1_errors_become_results.2.2.2.2.2.2.2.2.2.2.2.2.2.2.2.2.2.2.2.2.2.2.1
    scenarioClusterArgs env404Cluster 404 "404 Not Found" (.error "eof")
    (by rfl) (by rfl) (by rfl) (by rfl) (by norm_num) (fun u => rfl)

/-- C4 counterexample: `get_issue_details` is a tool whose external query
(`ListEvents`) decodes to an empty result collection, yet its rendered
result is not a single "No X found" sentence: with zero events it still
renders the full multi-section report (headings and the suggested-actions
block) around the sentence "No recent error events found.". -/
theorem claim_C4_counterexample :
    (handleGetIssueDetails
        [("project_id", .str "p"), ("error_group_id", .str "g")]
        envEmptyEvents).1.isError = false ∧
    (handleGetIssueDetails
        [("project_id", .str "p"), ("error_group_id", .str "g")]
        envEmptyEvents).1.content ≠ "No recent error events found." ∧
    hasSub (handleGetIssueDetails
        [("project_id", .str "p"), ("error_group_id", .str "g")]
        envEmptyEvents).1.content "### Potential Causes and Solutions" = true := by
  refine ⟨by rfl, by decide, by rfl⟩

/-- C4 amended: for every listing/search tool — `list_clusters`,
`list_node_pools`, `query_metrics`, `list_alerts`, `query_logs`,
`get_pod_logs`, `list_active_issues`, and the documentation searches —
an empty decoded result collection renders exactly the single explanatory
"No X found" sentence with `isError = false`; `get_issue_details` is the
one exception, embedding its "No recent error events found." sentence
inside a full report.  In particular `list_clusters` on
`{project_id: "demo"}` with zero clusters renders exactly
"No GKE clusters found in project demo.". -/
theorem claim_C4_empty_renders_sentence :
    (∀ (pid st : String) (env : HttpEnv String ClustersResponse), pid ≠ "" →
      env.client = .ok () →
      (∀ u, env.http u = .resp 200 st (.ok ⟨[]⟩)) →
      handleListClusters [("project_id", .str pid)] env =
        (toolText ("No GKE clusters found in project " ++ pid ++ "."), none)) ∧
    (∀ (pid loc cn st : String) (env : HttpEnv String NodePoolsResponse),
      pid ≠ "" → loc ≠ "" → cn ≠ "" →
      env.client = .ok () →
      (∀ u, env.http u = .resp 200 st (.ok ⟨[]⟩)) →
      handleListNodePools
          [("project_id", .str pid), ("location", .str loc),
           ("cluster_name", .str cn)] env =
        (toolText ("No node pools found in cluster " ++ cn ++
          " in location " ++ loc ++ "."), none)) ∧
    (∀ (pid mt st : String) (now : Int)
      (env : TimedHttpEnv MetricsRequest MetricsResponse),
      pid ≠ "" → mt ≠ "" →
      env.client = .ok () →
      (∀ r, env.http r = .resp 200 st (.ok ⟨[], [], []⟩)) →
      handleQueryMetrics
          [("project_id", .str pid), ("metric_type", .str mt)] now env =
        (toolText ("No metrics data found for metric type " ++ mt ++
          " in the specified time range."), none)) ∧
    (∀ (pid stP stI : String) (ps : PoliciesResponse) (env : AlertsEnv),
      pid ≠ "" →
      env.client = .ok () →
      (∀ u, env.httpPolicies u = .resp 200 stP (.ok ps)) →
      (∀ u, env.httpIncidents u = .resp 200 stI (.ok ⟨[]⟩)) →
      handleListAlerts [("project_id", .str pid)] env =
        (toolText "No active alerts found.", none)) ∧
    (∀ (pid flt st : String) (now : Int)
      (env : TimedHttpEnv LogsRequest LogsResponse),
      pid ≠ "" → flt ≠ "" →
      env.client = .ok () →
      (∀ r, env.http r = .resp 200 st (.ok ⟨[], ""⟩)) →
      handleQueryLogs [("project_id", .str pid), ("filter", .str flt)] now env =
        (toolText "No logs found matching the filter criteria.", none)) ∧
    (∀ (pid loc cn ns pod st : String) (now : Int)
      (env : TimedHttpEnv LogsRequest PodLogsResponse),
      pid ≠ "" → loc ≠ "" → cn ≠ "" → ns ≠ "" → pod ≠ "" →
      env.client = .ok () →
      (∀ r, env.http r = .resp 200 st (.ok ⟨[], ""⟩)) →
      handleGetPodLogs
          [("project_id", .str pid), ("location", .str loc),
           ("cluster_name", .str cn), ("namespace", .str ns),
           ("pod_name", .str pod)] now env =
        (toolText ("No logs found for pod " ++ pod ++ " in namespace " ++
          ns ++ "."), none)) ∧
    (∀ (pid : String) (env : GroupStatsEnv), pid ≠ "" →
      env.opts = .ok () → env.newClient = .ok () →
      (∀ r, env.stats r = .ok []) →
      handleListActiveIssues [("project_id", .str pid)] env =
        (toolText "No active issues found in the specified time range.",
         none)) ∧
    (∀ q : String, q ≠ "" → filterResults gcpSimulatedResults q = [] →
      handleSearchGCPDocs [("query", .str q)] =
        (toolText ("No documentation found for query: " ++ q), none)) ∧
    (∀ q : String, q ≠ "" → filterResults k8sSimulatedResults q = [] →
      handleSearchK8sDocs [("query", .str q)] =
        (toolText ("No documentation found for query: " ++ q), none)) ∧
    handleListClusters [("project_id", .str "demo")] envEmptyClusters =
      (toolText "No GKE clusters found in project demo.", none) := by
  refine ⟨?_, ?_, ?_, ?_, ?_, ?_, ?_, ?_, ?_, by rfl⟩
  · intro pid st env hpid hcl hhttp
    unfold handleListClusters
    have hok : strOkB (lookupArg [("project_id", Value.str pid)]
        "project_id") = true := by simp [lookupArg, strOkB, hpid]
    rw [reqString_ok hok, hcl]
    simp only [hhttp]
    simp [httpTail, renderListClusters, optString, argStr, lookupArg,
      String.append_empty]
  · intro pid loc cn st env hpid hloc hcn hcl hhttp
    unfold handleListNodePools
    have h1 : strOkB (lookupArg [("project_id", Value.str pid),
        ("location", Value.str loc), ("cluster_name", Value.str cn)]
        "project_id") = true := by simp [lookupArg, strOkB, hpid]
    have h2 : strOkB (lookupArg [("project_id", Value.str pid),
        ("location", Value.str loc), ("cluster_name", Value.str cn)]
        "location") = true := by simp [lookupArg, strOkB, hloc]
    have h3 : strOkB (lookupArg [("project_id", Value.str pid),
        ("location", Value.str loc), ("cluster_name", Value.str cn)]
        "cluster_name") = true := by simp [lookupArg, strOkB, hcn]
    rw [reqString_ok h1, reqString_ok h2, reqString_ok h3, hcl]
    simp only [hhttp]
    simp [httpTail, renderNodePools, argStr, lookupArg]
  · intro pid mt st now env hpid hmt hcl hhttp
    unfold handleQueryMetrics
    have h1 : strOkB (lookupArg [("project_id", Value.str pid),
        ("metric_type", Value.str mt)] "project_id") = true := by
      simp [lookupArg, strOkB, hpid]
    have h2 : strOkB (lookupArg [("project_id", Value.str pid),
        ("metric_type", Value.str mt)] "metric_type") = true := by
      simp [lookupArg, strOkB, hmt]
    rw [reqString_ok h1, reqString_ok h2, hcl]
    simp only [hhttp]
    simp [httpTail, renderMetrics, argStr, lookupArg]
  · intro pid stP stI ps env hpid hcl hpol hinc
    unfold handleListAlerts
    have hok : strOkB (lookupArg [("project_id", Value.str pid)]
        "project_id") = true := by simp [lookupArg, strOkB, hpid]
    rw [reqString_ok hok, hcl]
    simp only [hpol, hinc]
    simp [httpTail, renderAlerts, optString, argStr, lookupArg]
  · intro pid flt st now env hpid hflt hcl hhttp
    unfold handleQueryLogs
    have h1 : strOkB (lookupArg [("project_id", Value.str pid),
        ("filter", Value.str flt)] "project_id") = true := by
      simp [lookupArg, strOkB, hpid]
    have h2 : strOkB (lookupArg [("project_id", Value.str pid),
        ("filter", Value.str flt)] "filter") = true := by
      simp [lookupArg, strOkB, hflt]
    rw [reqString_ok h1, reqString_ok h2, hcl]
    simp only [hhttp]
    simp [httpTail, renderLogs]
  · intro pid loc cn ns pod st now env hpid hloc hcn hns hpod hcl hhttp
    unfold handleGetPodLogs
    have h1 : strOkB (lookupArg [("project_id", Value.str pid),
        ("location", Value.str loc), ("cluster_name", Value.str cn),
        ("namespace", Value.str ns), ("pod_name", Value.str pod)]
        "project_id") = true := by simp [lookupArg, strOkB, hpid]
    have h2 : strOkB (lookupArg [("project_id", Value.str pid),
        ("location", Value.str loc), ("cluster_name", Value.str cn),
        ("namespace", Value.str ns), ("pod_name", Value.str pod)]
        "location") = true := by simp [lookupArg, strOkB, hloc]
    have h3 : strOkB (lookupArg [("project_id", Value.str pid),
        ("location", Value.str loc), ("cluster_name", Value.str cn),
        ("namespace", Value.str ns), ("pod_name", Value.str pod)]
        "cluster_name") = true := by simp [lookupArg, strOkB, hcn]
    have h4 : strOkB (lookupArg [("project_id", Value.str pid),
        ("location", Value.str loc), ("cluster_name", Value.str cn),
        ("namespace", Value.str ns), ("pod_name", Value.str pod)]
        "namespace") = true := by simp [lookupArg, strOkB, hns]
    have h5 : strOkB (lookupArg [("project_id", Value.str pid),
        ("location", Value.str loc), ("cluster_name", Value.str cn),
        ("namespace", Value.str ns), ("pod_name", Value.str pod)]
        "pod_name") = true := by simp [lookupArg, strOkB, hpod]
    rw [reqString_ok h1, reqString_ok h2, reqString_ok h3, reqString_ok h4,
      reqString_ok h5, hcl]
    simp only [hhttp]
    simp [httpTail, renderPodLogs, argStr, lookupArg]
  · intro pid env hpid ho hn hs
    unfold handleListActiveIssues
    have hok : strOkB (lookupArg [("project_id", Value.str pid)]
        "project_id") = true := by simp [lookupArg, strOkB, hpid]
    rw [reqString_ok hok, ho, hn]
    simp only [hs]
    simp [renderActiveIssues, argStr, lookupArg]
  · intro q hq hfil
    unfold handleSearchGCPDocs
    have hok : strOkB (lookupArg [("query", Value.str q)] "query") = true := by
      simp [lookupArg, strOkB, hq]
    rw [reqString_ok hok]
    simp [argStr, lookupArg, hfil]
  · intro q hq hfil
    unfold handleSearchK8sDocs
    have hok : strOkB (lookupArg [("query", Value.str q)] "query") = true := by
      simp [lookupArg, strOkB, hq]
    rw [reqString_ok hok]
    simp [argStr, lookupArg, hfil]

/-- C4 witness: the `list_clusters` empty-collection conjunct applied at
project `demo` and the concrete empty stub. -/
theorem claim_C4_witness :
    handleListClusters [("project_id", .str "demo")] envEmptyClusters =
      (toolText ("No GKE clusters found in project " ++ "demo" ++ "."),
       none) :=
  claim_C4_empty_renders_sentence.1 "demo" "200 OK" envEmptyClusters
    (by decide) (by rfl) (fun u => rfl)

theorem perm_len_le_one_eq {α : Type} {l₁ l₂ : List α} (h : l₁.Perm l₂)
    (hl : l₁.length ≤ 1) : l₁ = l₂ := by
  cases l₁ with
  | nil => exact (h.symm.eq_nil).symm
  | cons a t =>
      cases t with
      | nil => exact List.singleton_perm.mp h
      | cons b t2 => simp at hl

theorem poolSame_eq {p₁ p₂ : NodePool} (h : poolSameMap p₁ p₂)
    (hl : p₁.labels.length ≤ 1) : p₁ = p₂ := by
  rcases h with ⟨heq, hperm⟩
  have hlab := perm_len_le_one_eq hperm hl
  rw [heq, ← hlab]

theorem logEntry_eq {e₁ e₂ : LogEntry} (h : logEntrySameMap e₁ e₂)
    (hl : e₁.resourceLabels.length ≤ 1) (hl2 : e₁.labels.length ≤ 1) :
    e₁ = e₂ := by
  rcases h with ⟨heq, hp1, hp2⟩
  have h1 := perm_len_le_one_eq hp1 hl
  have h2 := perm_len_le_one_eq hp2 hl2
  rw [heq, ← h1, ← h2]

theorem forall2_pools_eq : ∀ {l₁ l₂ : List NodePool},
    List.Forall₂ poolSameMap l₁ l₂ →
    (∀ p ∈ l₁, p.labels.length ≤ 1) → l₁ = l₂ := by
  intro l₁ l₂ h hl
  induction h with
  | nil => rfl
  | cons hpair htail ih =>
      rw [poolSame_eq hpair (hl _ (List.mem_cons_self _ _)),
        ih fun p hp => hl p (List.mem_cons_of_mem _ hp)]

theorem forall2_entries_eq : ∀ {l₁ l₂ : List LogEntry},
    List.Forall₂ logEntrySameMap l₁ l₂ →
    (∀ e ∈ l₁, e.resourceLabels.length ≤ 1 ∧ e.labels.length ≤ 1) →
    l₁ = l₂ := by
  intro l₁ l₂ h hl
  induction h with
  | nil => rfl
  | cons hpair htail ih =>
      rw [logEntry_eq hpair (hl _ (List.mem_cons_self _ _)).1
          (hl _ (List.mem_cons_self _ _)).2,
        ih fun e he => hl e (List.mem_cons_of_mem _ he)]

/-- C5 counterexample: `get_cluster_info` invoked twice with the same
arguments while the stub returns the same decoded payload both times —
the same cluster whose two-entry resource-label map is presented in the
two `range` iteration orders Go may choose — renders different bytes, so
rendering a fixed payload is not deterministic. -/
theorem claim_C5_counterexample :
    clusterSameMap labelsClusterA labelsClusterB ∧
    (handleGetClusterInfo scenarioClusterArgs
        { client := .ok (),
          http := fun _ => .resp 200 "200 OK" (.ok labelsClusterA) }).1.content ≠
      (handleGetClusterInfo scenarioClusterArgs
        { client := .ok (),
          http := fun _ => .resp 200 "200 OK" (.ok labelsClusterB) }).1.content := by
  constructor
  · exact ⟨by rfl, List.Perm.swap ("b", "2") ("a", "1") []⟩
  · decide

/-- C5 amended: rendering is a deterministic function of the decoded
payload together with the iteration order of its Go-map fields; byte
identity across two invocations on the same payload is guaranteed when
every map the renderer ranges over has at most one entry (shown for the
three renderers that range over maps: `get_cluster_info` resource labels,
`list_node_pools` per-pool labels, `query_logs` per-entry label maps).
With two or more entries the line order may differ between invocations,
because Go map iteration order is unspecified. -/
theorem claim_C5_determinism_amended :
    (∀ p₁ p₂ : ClusterDetail, clusterSameMap p₁ p₂ →
      p₁.resourceLabels.length ≤ 1 →
      renderClusterInfo p₁ = renderClusterInfo p₂) ∧
    (∀ (cn loc : String) (r₁ r₂ : NodePoolsResponse), poolsSameMap r₁ r₂ →
      (∀ p ∈ r₁.nodePools, p.labels.length ≤ 1) →
      renderNodePools cn loc r₁ = renderNodePools cn loc r₂) ∧
    (∀ r₁ r₂ : LogsResponse, logsSameMap r₁ r₂ →
      (∀ e ∈ r₁.entries, e.resourceLabels.length ≤ 1 ∧ e.labels.length ≤ 1) →
      renderLogs r₁ = renderLogs r₂) := by
  refine ⟨?_, ?_, ?_⟩
  · intro p₁ p₂ hs hl
    rcases hs with ⟨heq, hperm⟩
    have hlab := perm_len_le_one_eq hperm hl
    rw [heq, ← hlab]
  · intro cn loc r₁ r₂ h hl
    have he : r₁.nodePools = r₂.nodePools := forall2_pools_eq h hl
    have : r₁ = r₂ := by cases r₁; cases r₂; simpa using he
    rw [this]
  · intro r₁ r₂ h hl
    have he : r₁.entries = r₂.entries := forall2_entries_eq h.1 hl
    have ht := h.2
    have : r₁ = r₂ := by cases r₁; cases r₂; simp_all
    rw [this]

/-- C5 witness: a payload whose resource-label map has a single entry
renders identically across the (unique) iteration order. -/
theorem claim_C5_witness :
    renderClusterInfo { labelsClusterA with resourceLabels := [("a", "1")] } =
      renderClusterInfo { labelsClusterA with resourceLabels := [("a", "1")] } :=
  claim_C5_determinism_amended.1 _ _ ⟨rfl, List.Perm.refl _⟩ (by decide)

/-- C6 counterexample: not every rendered timestamp is converted.
`list_clusters` renders `createTime` verbatim: for a cluster whose
`createTime` "2024-01-02T03:04:05Z" parses successfully, the report
contains the wire string and not the converted form
"2024-01-02 03:04:05" that `formatTime` would produce. -/
theorem claim_C6_counterexample :
    (parseRFC3339 "2024-01-02T03:04:05Z").isSome = true ∧
    formatTime "2024-01-02T03:04:05Z" = "2024-01-02 03:04:05" ∧
    hasSub (handleListClusters [("project_id", .str "demo")]
        envOneCluster).1.content "2024-01-02T03:04:05Z" = true ∧
    hasSub (handleListClusters [("project_id", .str "demo")]
        envOneCluster).1.content "2024-01-02 03:04:05" = false := by
  refine ⟨by rfl, by rfl, by rfl, by rfl⟩

/-- C6 amended: the conversion policy — RFC3339 wire timestamps become
`YYYY-MM-DD HH:MM:SS` when parsing succeeds and are emitted verbatim
(never dropped) when parsing fails — holds for `formatTime` and for the
rendering sites that invoke that parse/format pair (`list_alerts` started
times, `get_pod_logs` log-line timestamps, `query_metrics` point times),
but not for every timestamp field: `list_clusters`/`get_cluster_info`
creation times, `query_logs` entry timestamps and the Error Reporting
tools emit the wire form unconverted. -/
theorem claim_C6_timestamp_policy_amended :
    (∀ (s : String) (t : DateTime), parseRFC3339 s = some t →
      formatTime s = fmtYMDHMS t) ∧
    (∀ s : String, parseRFC3339 s = none → formatTime s = s) ∧
    renderPodLogLine "c"
        { timestamp := "2024-01-02T03:04:05Z", severity := "",
          textPayload := "hello", jsonPayload := none,
          resourceLabels := [] } = "[2024-01-02 03:04:05] hello\n" ∧
    renderPodLogLine "c"
        { timestamp := "bogus", severity := "", textPayload := "hello",
          jsonPayload := none, resourceLabels := [] } = "[bogus] hello\n" ∧
    renderPointRow
        { values := [], startTime := "",
          endTime := "2024-01-02T03:04:05Z" } = "| 2024-01-02 03:04:05 | N/A |\n" ∧
    hasSub (renderIncident [] 0
        { name := "", resourceName := "", policyName := "",
          conditionName := "", startTime := "2024-01-02T03:04:05Z",
          endTime := "", state := "OPEN", summary := "", documentation := "",
          severity := "", resourceDisplayName := "" })
      "- **Started**: 2024-01-02 03:04:05\n" = true := by
  refine ⟨?_, ?_, by rfl, by rfl, by rfl, by rfl⟩
  · intro s t h
    unfold formatTime
    rw [h]
  · intro s h
    unfold formatTime
    rw [h]

/-- C6 witness: the parse-success clause applied at a concrete RFC3339
instant. -/
theorem claim_C6_witness :
    formatTime "2024-01-02T03:04:05Z" =
      fmtYMDHMS ⟨2024, 1, 2, 3, 4, 5⟩ :=
  claim_C6_timestamp_policy_amended.1 "2024-01-02T03:04:05Z"
    ⟨2024, 1, 2, 3, 4, 5⟩ (by rfl)

end Operable
